import Mathlib

/-!
# gorm_logger: the request-id logger `with_req_id/logger.go`

A shallow embedding of `withReqIdLogger` (constructor `New`, `LogMode`, and the four
logging entry points `Info`, `Warn`, `Error`, `Trace`) together with theorems about its
observable behaviour.

Modelling conventions.

* `logger.LogLevel` is Go `int`; only comparisons are made on it, so it is an `Int`.
* `time.Duration` is an `int64` count of nanoseconds; only comparisons are made on it.
* Side effects are recorded in a `World`: the ordered list of calls made to the writer's
  `Printf` and to the result producer `fc`.
* What the Go code obtains from outside this repository (`utils.FileWithLineNum()`,
  `time.Since`, the rendering of a `time.Duration` by the `%v` verb) is a field of `Env`.
* The writer, too, is outside this repository. Where a statement is about the line it
  emits, its `Printf` is `sprintf`, written from the spec's description of it; what that
  description leaves open is a field of `Unspecified`.
-/

namespace withreqid

/-! ## Values handed to the writer -/

/-- A Go `error` value: its text and whether `errors.Is(err, logger.ErrRecordNotFound)` holds. -/
structure GoError where
  text : String
  isRecordNotFound : Bool
  deriving DecidableEq, Repr

/-- One element of the variadic `...interface{}` argument list of `Printf`. -/
inductive Arg where
  /-- A Go `string`. -/
  | str (s : String)
  /-- A Go `int64`. -/
  | int64 (n : Int)
  /-- The `float64` value `float64(num) / den`. -/
  | float64Div (num : Int) (den : Nat)
  /-- A Go `error`. -/
  | error (e : GoError)
  deriving DecidableEq, Repr

/-- An observable call made by a logging method. -/
inductive Event (W : Type) where
  /-- The call `writer.Printf(format, args...)`. -/
  | printf (writer : W) (format : String) (args : List Arg)
  /-- The call `fc()` of the result producer handed to `Trace`. -/
  | fcCall
  deriving DecidableEq, Repr

/-- The calls made so far, oldest first. -/
abbrev World (W : Type) := List (Event W)

/-- Number of writer invocations recorded in a world. -/
def printfCount {W : Type} : World W → Nat
  | [] => 0
  | Event.printf _ _ _ :: es => printfCount es + 1
  | Event.fcCall :: es => printfCount es

/-- Number of producer invocations recorded in a world. -/
def fcCount {W : Type} : World W → Nat
  | [] => 0
  | Event.printf _ _ _ :: es => fcCount es
  | Event.fcCall :: es => fcCount es + 1

/-- What the logger reads from its surroundings during one call. -/
structure Env where
  /-- Result of `utils.FileWithLineNum()`. -/
  FileWithLineNum : String
  /-- Result of `time.Since(begin)`, in nanoseconds. -/
  Since : Int → Int
  /-- Rendering of a `time.Duration` by the `%v` verb. -/
  durationString : Int → String

/-! ## `gorm.io/gorm/logger` declarations used by the file -/

namespace logger

/-- Colour escape sequences of `gorm.io/gorm/logger`. -/
def Reset : String := "\x1b[0m"
def Red : String := "\x1b[31m"
def Green : String := "\x1b[32m"
def Yellow : String := "\x1b[33m"
def Magenta : String := "\x1b[35m"
def BlueBold : String := "\x1b[34;1m"
def MagentaBold : String := "\x1b[35;1m"
def RedBold : String := "\x1b[31;1m"

/-- Log levels: `Silent LogLevel = iota + 1`, then `Error`, `Warn`, `Info`. -/
def Silent : Int := 1
def Error : Int := 2
def Warn : Int := 3
def Info : Int := 4

/-- The struct `logger.Config`. -/
structure Config where
  SlowThreshold : Int
  Colorful : Bool
  IgnoreRecordNotFoundError : Bool
  LogLevel : Int
  deriving DecidableEq, Repr

end logger

/-! ## The logger -/

/-- The type `ReqIdGetter func(ctx context.Context) string`. -/
abbrev ReqIdGetter (Ctx : Type) := Ctx → String

/-- The struct `withReqIdLogger`; `Writer` and `Config` are its embedded fields. -/
structure withReqIdLogger (W Ctx : Type) where
  Writer : W
  Config : logger.Config
  infoStr : String
  warnStr : String
  errStr : String
  traceStr : String
  traceErrStr : String
  traceWarnStr : String
  reqIdGetter : ReqIdGetter Ctx

/-- The function `AlwaysEmptyReqId`. -/
def AlwaysEmptyReqId {Ctx : Type} (_ctx : Ctx) : String := ""

/-- The constructor `New`; a nil getter is `none`. -/
def New {W Ctx : Type} (writer : W) (config : logger.Config)
    (getter : Option (ReqIdGetter Ctx)) : withReqIdLogger W Ctx :=
  let infoStr := "%s\t[info] req_id:%s "
  let warnStr := "%s\t[warn] req_id:%s "
  let errStr := "%s\t[error] req_id:%s "
  let traceStr := "%s\t[%.3fms] [rows:%v] %s req_id:%s "
  let traceWarnStr := "%s %s\t[%.3fms] [rows:%v] %s req_id:%s "
  let traceErrStr := "%s %s\t[%.3fms] [rows:%v] %s req_id:%s "
  let infoStr := if config.Colorful then
      logger.Green ++ "%s\t" ++ logger.Reset ++ logger.Green ++ "[info] req_id:%s " ++ logger.Reset
    else infoStr
  let warnStr := if config.Colorful then
      logger.BlueBold ++ "%s\t" ++ logger.Reset ++ logger.Magenta ++ "[warn] req_id:%s " ++ logger.Reset
    else warnStr
  let errStr := if config.Colorful then
      logger.Magenta ++ "%s\t" ++ logger.Reset ++ logger.Red ++ "[error] req_id:%s " ++ logger.Reset
    else errStr
  let traceStr := if config.Colorful then
      logger.Green ++ "%s\t" ++ logger.Reset ++ logger.Yellow ++ "[%.3fms] " ++ logger.BlueBold
        ++ "[rows:%v]" ++ logger.Reset ++ " %s req_id:%s "
    else traceStr
  let traceWarnStr := if config.Colorful then
      logger.Green ++ "%s " ++ logger.Yellow ++ "%s\t" ++ logger.Reset ++ logger.RedBold
        ++ "[%.3fms] " ++ logger.Yellow ++ "[rows:%v]" ++ logger.Magenta ++ " %s req_id:%s "
        ++ logger.Reset
    else traceWarnStr
  let traceErrStr := if config.Colorful then
      logger.RedBold ++ "%s " ++ logger.MagentaBold ++ "%s\t" ++ logger.Reset ++ logger.Yellow
        ++ "[%.3fms] " ++ logger.BlueBold ++ "[rows:%v]" ++ logger.Reset ++ " %s req_id:%s "
    else traceErrStr
  let getter := match getter with
    | none => AlwaysEmptyReqId
    | some g => g
  { Writer := writer
    Config := config
    infoStr := infoStr
    warnStr := warnStr
    errStr := errStr
    traceStr := traceStr
    traceWarnStr := traceWarnStr
    traceErrStr := traceErrStr
    reqIdGetter := getter }

namespace withReqIdLogger

variable {W Ctx : Type}

/-- The promoted field `l.LogLevel` of the embedded `logger.Config`. -/
abbrev LogLevel (l : withReqIdLogger W Ctx) : Int := l.Config.LogLevel

/-- The promoted field `l.SlowThreshold`. -/
abbrev SlowThreshold (l : withReqIdLogger W Ctx) : Int := l.Config.SlowThreshold

/-- The promoted field `l.IgnoreRecordNotFoundError`. -/
abbrev IgnoreRecordNotFoundError (l : withReqIdLogger W Ctx) : Bool :=
  l.Config.IgnoreRecordNotFoundError

/-- The promoted method `l.Printf` of the embedded writer: the call is appended to the world. -/
def Printf (l : withReqIdLogger W Ctx) (format : String) (args : List Arg)
    (s : World W) : World W :=
  s ++ [Event.printf l.Writer format args]

/-- The method `LogMode` on the struct value: `newlogger := *l; newlogger.LogLevel = level`. -/
def LogMode (l : withReqIdLogger W Ctx) (level : Int) : withReqIdLogger W Ctx :=
  let newlogger := l
  { newlogger with Config := { newlogger.Config with LogLevel := level } }

/-- The method `LogMode` on its pointer receiver. A store lists the struct values that
live in memory and an address is a position in it: `*l` reads the cell at `l`, and
`&newlogger` is the address of a fresh cell holding the modified copy. Reading an address
that is not in the store fails. -/
def LogModePtr (store : List (withReqIdLogger W Ctx)) (l : Nat) (level : Int) :
    Option (List (withReqIdLogger W Ctx) × Nat) :=
  match store[l]? with
  | none => none
  | some v => some (store ++ [v.LogMode level], store.length)

/-- The method `Info`. -/
def Info (l : withReqIdLogger W Ctx) (env : Env) (ctx : Ctx) (msg : String)
    (data : List Arg) (s : World W) : World W :=
  if l.LogLevel ≥ logger.Info then
    l.Printf (l.infoStr ++ msg)
      ([Arg.str env.FileWithLineNum, Arg.str (l.reqIdGetter ctx)] ++ data) s
  else s

/-- The method `Warn`. -/
def Warn (l : withReqIdLogger W Ctx) (env : Env) (ctx : Ctx) (msg : String)
    (data : List Arg) (s : World W) : World W :=
  if l.LogLevel ≥ logger.Warn then
    l.Printf (l.warnStr ++ msg)
      ([Arg.str env.FileWithLineNum, Arg.str (l.reqIdGetter ctx)] ++ data) s
  else s

/-- The method `Error`. -/
def Error (l : withReqIdLogger W Ctx) (env : Env) (ctx : Ctx) (msg : String)
    (data : List Arg) (s : World W) : World W :=
  if l.LogLevel ≥ logger.Error then
    l.Printf (l.errStr ++ msg)
      ([Arg.str env.FileWithLineNum, Arg.str (l.reqIdGetter ctx)] ++ data) s
  else s

/-- The call `sql, rows := fc()`: the producer runs and the call is recorded. -/
def callFc (fc : Unit → String × Int) (s : World W) : (String × Int) × World W :=
  (fc (), s ++ [Event.fcCall])

/-- The method `Trace`; a nil `err` is `none`. -/
def Trace (l : withReqIdLogger W Ctx) (env : Env) (ctx : Ctx) (begin : Int)
    (fc : Unit → String × Int) (err : Option GoError) (s : World W) : World W :=
  if l.LogLevel ≤ logger.Silent then s
  else
    let elapsed := env.Since begin
    let reqId := l.reqIdGetter ctx
    match err with
    | some e =>
      if l.LogLevel ≥ logger.Error ∧ (!e.isRecordNotFound || !l.IgnoreRecordNotFoundError) then
        let ((sql, rows), s) := callFc fc s
        if rows = -1 then
          l.Printf l.traceErrStr [Arg.str env.FileWithLineNum, Arg.error e,
            Arg.float64Div elapsed 1000000, Arg.str "-", Arg.str sql, Arg.str reqId] s
        else
          l.Printf l.traceErrStr [Arg.str env.FileWithLineNum, Arg.error e,
            Arg.float64Div elapsed 1000000, Arg.int64 rows, Arg.str sql, Arg.str reqId] s
      else traceNoErr elapsed reqId
    | none => traceNoErr elapsed reqId
where
  /-- The cases of the `switch` after the first one. -/
  traceNoErr (elapsed : Int) (reqId : String) : World W :=
    if elapsed > l.SlowThreshold ∧ l.SlowThreshold ≠ 0 ∧ l.LogLevel ≥ logger.Warn then
      let ((sql, rows), s) := callFc fc s
      let slowLog := "SLOW SQL >= " ++ env.durationString l.SlowThreshold
      if rows = -1 then
        l.Printf l.traceWarnStr [Arg.str env.FileWithLineNum, Arg.str slowLog,
          Arg.float64Div elapsed 1000000, Arg.str "-", Arg.str sql, Arg.str reqId] s
      else
        l.Printf l.traceWarnStr [Arg.str env.FileWithLineNum, Arg.str slowLog,
          Arg.float64Div elapsed 1000000, Arg.int64 rows, Arg.str sql, Arg.str reqId] s
    else if l.LogLevel = logger.Info then
      let ((sql, rows), s) := callFc fc s
      if rows = -1 then
        l.Printf l.traceStr [Arg.str env.FileWithLineNum,
          Arg.float64Div elapsed 1000000, Arg.str "-", Arg.str sql, Arg.str reqId] s
      else
        l.Printf l.traceStr [Arg.str env.FileWithLineNum,
          Arg.float64Div elapsed 1000000, Arg.int64 rows, Arg.str sql, Arg.str reqId] s
    else s

/-! ## Vocabulary of the statements -/

/-- The rows argument of a trace line: the text `-` for the sentinel `-1`, else the number. -/
def rowsArg (rows : Int) : Arg :=
  if rows = -1 then Arg.str "-" else Arg.int64 rows

/-- Guard of the first `case` of the `switch` in `Trace` (the error branch). -/
def errCase (l : withReqIdLogger W Ctx) (err : Option GoError) : Bool :=
  match err with
  | none => false
  | some e =>
    decide (l.LogLevel ≥ logger.Error) && (!e.isRecordNotFound || !l.IgnoreRecordNotFoundError)

/-- Guard of the second `case` of the `switch` in `Trace` (the slow-query branch). -/
def slowCase (l : withReqIdLogger W Ctx) (env : Env) (begin : Int) : Bool :=
  decide (env.Since begin > l.SlowThreshold) && decide (l.SlowThreshold ≠ 0)
    && decide (l.LogLevel ≥ logger.Warn)

/-- The writer call of the error branch of `Trace`. -/
def traceErrLine (l : withReqIdLogger W Ctx) (env : Env) (ctx : Ctx) (begin : Int)
    (fc : Unit → String × Int) (e : GoError) : Event W :=
  Event.printf l.Writer l.traceErrStr [Arg.str env.FileWithLineNum, Arg.error e,
    Arg.float64Div (env.Since begin) 1000000, rowsArg (fc ()).2, Arg.str (fc ()).1,
    Arg.str (l.reqIdGetter ctx)]

/-- The writer call of the slow-query branch of `Trace`. -/
def traceSlowLine (l : withReqIdLogger W Ctx) (env : Env) (ctx : Ctx) (begin : Int)
    (fc : Unit → String × Int) : Event W :=
  Event.printf l.Writer l.traceWarnStr [Arg.str env.FileWithLineNum,
    Arg.str ("SLOW SQL >= " ++ env.durationString l.SlowThreshold),
    Arg.float64Div (env.Since begin) 1000000, rowsArg (fc ()).2, Arg.str (fc ()).1,
    Arg.str (l.reqIdGetter ctx)]

/-- The writer call of the normal branch of `Trace`. -/
def traceLine (l : withReqIdLogger W Ctx) (env : Env) (ctx : Ctx) (begin : Int)
    (fc : Unit → String × Int) : Event W :=
  Event.printf l.Writer l.traceStr [Arg.str env.FileWithLineNum,
    Arg.float64Div (env.Since begin) 1000000, rowsArg (fc ()).2, Arg.str (fc ()).1,
    Arg.str (l.reqIdGetter ctx)]

end withReqIdLogger

/-! ## Sample inputs -/

/-- A clock on which every query has taken 5 ms; durations are rendered as a count of ns. -/
def sampleEnv : Env :=
  { FileWithLineNum := "main.go:10"
    Since := fun _ => 5000000
    durationString := fun d => toString d ++ "ns" }

/-- A producer reporting one statement and three affected rows. -/
def sampleFc : Unit → String × Int := fun _ => ("SELECT 1", 3)

/-- A getter reading the request id stored as the context itself. -/
def sampleGetter : ReqIdGetter String := fun ctx => ctx

/-- The error `gorm.ErrRecordNotFound`. -/
def sampleNotFound : GoError := { text := "record not found", isRecordNotFound := true }

/-- An error that is not record-not-found. -/
def sampleFailure : GoError := { text := "connection refused", isRecordNotFound := false }

/-- A configuration with a 1 ms slow threshold. -/
def sampleConfig (level : Int) (ignoreNotFound : Bool) : logger.Config :=
  { SlowThreshold := 1000000
    Colorful := false
    IgnoreRecordNotFoundError := ignoreNotFound
    LogLevel := level }

/-- A plain logger over the unit writer, at the given level. -/
def sampleLogger (level : Int) (ignoreNotFound : Bool) : withReqIdLogger Unit String :=
  New () (sampleConfig level ignoreNotFound) (some sampleGetter)

/-! ## The writer's formatting

The writer is outside this repository. The spec describes it as standard printf-style verb
substitution with the verbs `%s` (string), `%v` (generic) and `%.3f` (fixed-point float);
the definitions of this section follow that description. -/

/-- Modelled from the spec: "3-decimal rounding". The integer nearest to `n / d`, the even
one of the two when `n / d` lies half-way (`d` positive). -/
def roundHalfEven (n d : Nat) : Nat :=
  let q := n / d
  let r := n % d
  if 2 * r < d then q
  else if d < 2 * r then q + 1
  else if q % 2 = 0 then q
  else q + 1

/-- Number of binary digits of `n`, counted in at most `fuel` halvings. -/
def bitLength : Nat → Nat → Nat
  | 0, _ => 0
  | fuel + 1, n => if n = 0 then 0 else bitLength fuel (n / 2) + 1

/-- Modelled from the spec: the `float64` arithmetic behind "`%.3f` fixed-point float",
which belongs to Go and not to this repository. The `float64` nearest to the positive
fraction `n / d` (ties to the even significand), as a fraction whose denominator is a power
of two; exact in the range of normal numbers, which holds every quotient of an `int64` by
`1e6`. -/
def float64Round (n d : Nat) : Nat × Nat :=
  if n = 0 then (0, 1)
  else
    let hi := bitLength n n
    let lo := bitLength d d
    let below := decide (n * 2 ^ lo < d * 2 ^ hi)
    let up := 52 + lo + (if below then 1 else 0)
    if hi ≤ up then
      (roundHalfEven (n * 2 ^ (up - hi)) d, 2 ^ (up - hi))
    else
      (roundHalfEven n (d * 2 ^ (hi - up)) * 2 ^ (hi - up), 1)

/-- The value of the `float64` expression `float64(num) / den` for a positive `den`, as its
sign and the fraction that is its magnitude. -/
def float64DivValue (num : Int) (den : Nat) : Bool × Nat × Nat :=
  let x := float64Round num.natAbs 1
  let y := float64Round den 1
  (decide (num < 0), float64Round (x.1 * y.2) (x.2 * y.1))

/-- Modelled from the spec: `%.3f`, "milliseconds with exactly 3 decimal digits". The
fraction `p / q` in thousandths, rounded to the nearest. -/
def thousandths (p q : Nat) : Nat :=
  roundHalfEven (p * 1000) q

/-- Modelled from the spec: the text of `r` thousandths with three decimal digits. -/
def fixed3 (r : Nat) : String :=
  toString (r / 1000) ++ "." ++ String.mk
    [Nat.digitChar (r / 100 % 10), Nat.digitChar (r / 10 % 10), Nat.digitChar (r % 10)]

/-- Modelled from the spec: the text written by `%.3f` for `float64(num) / den`. -/
def formatFloat3 (num : Int) (den : Nat) : String :=
  let v := float64DivValue num den
  (if v.1 then "-" else "") ++ fixed3 (thousandths v.2.1 v.2.2)

/-- What the writer does where the spec is silent: the text it writes for a directive other
than `%s`, `%v`, `%.3f`, `%%` or for an argument the verb does not take or that is missing
(`badVerb`), for arguments left over at the end of the format (`extra`), and for a format
that ends inside a directive (`noVerb`). -/
structure Unspecified where
  badVerb : List Char → Char → Option Arg → List Char
  extra : List Arg → List Char
  noVerb : List Char → List Arg → List Char

/-- Characters that may stand between `%` and the verb of a directive. -/
def isFlagChar (c : Char) : Bool :=
  c.isDigit || c == '.' || c == '+' || c == '-' || c == '#' || c == ' '

/-- Modelled from the spec: the text a verb writes for the argument it takes, `%s` for a
string or an error, `%v` for these and for an integer, `%.3f` for a float. -/
def renderArg (flags : List Char) (verb : Char) : Arg → Option String
  | Arg.str s => if flags = [] ∧ (verb = 's' ∨ verb = 'v') then some s else none
  | Arg.error e => if flags = [] ∧ (verb = 's' ∨ verb = 'v') then some e.text else none
  | Arg.int64 n => if flags = [] ∧ verb = 'v' then some (toString n) else none
  | Arg.float64Div n d => if flags = ['.', '3'] ∧ verb = 'f' then some (formatFloat3 n d) else none

/-- Modelled from the spec: "standard printf-style verb substitution". The format is read
from left to right; outside a directive (`none`) a character is copied, and `%` opens a
directive; inside one (`some flags`) the verb takes the next argument. -/
def sprintfAux (u : Unspecified) : Option (List Char) → List Char → List Arg → List Char
  | none, [], [] => []
  | none, [], a :: rest => u.extra (a :: rest)
  | some flags, [], args => u.noVerb flags args
  | none, c :: cs, args =>
    if c = '%' then sprintfAux u (some []) cs args else c :: sprintfAux u none cs args
  | some flags, c :: cs, args =>
    if isFlagChar c then sprintfAux u (some (flags ++ [c])) cs args
    else if c = '%' ∧ flags = [] then '%' :: sprintfAux u none cs args
    else
      match args with
      | [] => u.badVerb flags c none ++ sprintfAux u none cs []
      | a :: rest =>
        (match renderArg flags c a with
          | some t => t.data
          | none => u.badVerb flags c (some a)) ++ sprintfAux u none cs rest

/-- Modelled from the spec: the line the writer emits for `Printf(format, args...)`. -/
def sprintf (u : Unspecified) (format : String) (args : List Arg) : String :=
  String.mk (sprintfAux u none format.data args)

/-- The directives of a format, each with its flags and verb, in order (`%%` is none). -/
def directives : Option (List Char) → List Char → List (List Char × Char)
  | _, [] => []
  | none, c :: cs => if c = '%' then directives (some []) cs else directives none cs
  | some flags, c :: cs =>
    if isFlagChar c then directives (some (flags ++ [c])) cs
    else if c = '%' ∧ flags = [] then directives none cs
    else (flags, c) :: directives none cs

/-- The verbs of a format as texts, `%s`, `%.3f`, and so on, in order. -/
def verbs (format : String) : List String :=
  (directives none format.data).map (fun d => String.mk ('%' :: d.1 ++ [d.2]))

/-- Number of places of `hay` at which the non-empty text `needle` starts. -/
def occurrences (needle : List Char) : List Char → Nat
  | [] => 0
  | c :: cs => (if needle.isPrefixOf (c :: cs) then 1 else 0) + occurrences needle cs

/-- A writer that writes nothing where the spec is silent. -/
def sampleUnspecified : Unspecified :=
  { badVerb := fun _ _ _ => []
    extra := fun _ => []
    noVerb := fun _ _ => [] }

/-! ## Vocabulary for the templates -/

/-- The colour escape sequences of `gorm.io/gorm/logger` that the templates use. -/
def colourCodes : List String :=
  [logger.Reset, logger.Red, logger.Green, logger.Yellow, logger.Magenta, logger.BlueBold,
    logger.MagentaBold, logger.RedBold]

/-- Deletes every colour escape sequence from a text, reading from the left; the number is
the count of characters of a sequence still to be dropped. -/
def stripColours : Nat → List Char → List Char
  | _, [] => []
  | k + 1, _ :: cs => stripColours k cs
  | 0, c :: cs =>
    match colourCodes.find? (fun code => code.data.isPrefixOf (c :: cs)) with
    | some code => stripColours (code.length - 1) cs
    | none => c :: stripColours 0 cs

/-- The text of a template with its colour escape sequences deleted. -/
def visible (template : String) : String :=
  String.mk (stripColours 0 template.data)

/-- The bracketed words of a text: the runs of letters that stand between `[` and `]`. -/
def bracketedWords : Option (List Char) → List Char → List String
  | _, [] => []
  | none, c :: cs => if c = '[' then bracketedWords (some []) cs else bracketedWords none cs
  | some acc, c :: cs =>
    if c = ']' then
      (if acc = [] then [] else [String.mk acc]) ++ bracketedWords none cs
    else if c.isAlpha then bracketedWords (some (acc ++ [c])) cs
    else if c = '[' then bracketedWords (some []) cs
    else bracketedWords none cs

/-- The severity tags of a template: its bracketed words. -/
def severityTags (template : String) : List String :=
  bracketedWords none template.data

/-- The six templates of a logger, in the order info, warn, error, trace, trace-warn,
trace-error. -/
def templates {W Ctx : Type} (l : withReqIdLogger W Ctx) : List String :=
  [l.infoStr, l.warnStr, l.errStr, l.traceStr, l.traceWarnStr, l.traceErrStr]

/-- The six templates `New` builds for a value of the colorful flag. -/
def templatesOf (colorful : Bool) : List String :=
  templates (New ()
    { SlowThreshold := 0
      Colorful := colorful
      IgnoreRecordNotFoundError := false
      LogLevel := 0 }
    (none : Option (ReqIdGetter Unit)))

/-- The last `%` of the template is the one of `req_id:%s`: the request-id placeholder is
its last verb. -/
def lastVerbIsReqId (template : String) : Bool :=
  let r := template.data.reverse
  "%:di_qer".data.isPrefixOf (r.dropWhile (fun c => c != '%'))
    && (r.takeWhile (fun c => c != '%')).getLast? == some 's'

/-- In the visible text the first `[` comes right after `%s` and a tab, and the template
has that tab and no other. -/
def tabAfterVerb (template : String) : Bool :=
  let v := (visible template).data
  "%s\t".data.isSuffixOf (v.takeWhile (fun c => c != '['))
    && v.any (fun c => c == '[')
    && template.data.count '\t' == 1
    && occurrences "%s\t".data template.data == 1

/-- The arguments match the directives one for one, each of a kind its verb takes. -/
def agree : List (List Char × Char) → List Arg → Bool
  | [], [] => true
  | d :: ds, a :: rest => (renderArg d.1 d.2 a).isSome && agree ds rest
  | _, _ => false

/-- The method `Trace` as claim C19 words its comparand: the same function with the
conjunct `l.LogLevel >= logger.Error` removed from the guard of the error branch. -/
def withReqIdLogger.TraceWithoutLevelConjunct {W Ctx : Type} (l : withReqIdLogger W Ctx)
    (env : Env) (ctx : Ctx) (begin : Int) (fc : Unit → String × Int) (err : Option GoError)
    (s : World W) : World W :=
  if l.LogLevel ≤ logger.Silent then s
  else
    let elapsed := env.Since begin
    let reqId := l.reqIdGetter ctx
    match err with
    | some e =>
      if (!e.isRecordNotFound || !l.IgnoreRecordNotFoundError) = true then
        let ((sql, rows), s) := withReqIdLogger.callFc fc s
        if rows = -1 then
          l.Printf l.traceErrStr [Arg.str env.FileWithLineNum, Arg.error e,
            Arg.float64Div elapsed 1000000, Arg.str "-", Arg.str sql, Arg.str reqId] s
        else
          l.Printf l.traceErrStr [Arg.str env.FileWithLineNum, Arg.error e,
            Arg.float64Div elapsed 1000000, Arg.int64 rows, Arg.str sql, Arg.str reqId] s
      else withReqIdLogger.Trace.traceNoErr l env fc s elapsed reqId
    | none => withReqIdLogger.Trace.traceNoErr l env fc s elapsed reqId

/-! ## Vocabulary for the rendered lines -/

/-- A colour code in the colorful set, nothing in the plain set. -/
def paint (colorful : Bool) (code : String) : String :=
  if colorful then code else ""

/-- The text of the rows argument: `-` for the sentinel `-1`, else the number. -/
def rowsText (rows : Int) : String :=
  if rows = -1 then "-" else toString rows

/-- The text the writer appends for data arguments that no verb has taken. -/
def extraText (u : Unspecified) (data : List Arg) : String :=
  match data with
  | [] => ""
  | a :: rest => String.mk (u.extra (a :: rest))

/-- An info line up to the message body. -/
def infoText (c : Bool) (caller rid : String) : String :=
  paint c logger.Green ++ caller ++ "\t" ++ paint c logger.Reset ++ paint c logger.Green
    ++ "[info] req_id:" ++ rid ++ " " ++ paint c logger.Reset

/-- A warn line up to the message body. -/
def warnText (c : Bool) (caller rid : String) : String :=
  paint c logger.BlueBold ++ caller ++ "\t" ++ paint c logger.Reset ++ paint c logger.Magenta
    ++ "[warn] req_id:" ++ rid ++ " " ++ paint c logger.Reset

/-- An error line up to the message body. -/
def errText (c : Bool) (caller rid : String) : String :=
  paint c logger.Magenta ++ caller ++ "\t" ++ paint c logger.Reset ++ paint c logger.Red
    ++ "[error] req_id:" ++ rid ++ " " ++ paint c logger.Reset

/-- A normal trace line. -/
def traceText (c : Bool) (caller ms rows sql rid : String) : String :=
  paint c logger.Green ++ caller ++ "\t" ++ paint c logger.Reset ++ paint c logger.Yellow
    ++ "[" ++ ms ++ "ms] " ++ paint c logger.BlueBold ++ "[rows:" ++ rows ++ "]"
    ++ paint c logger.Reset ++ " " ++ sql ++ " req_id:" ++ rid ++ " "

/-- A slow-query trace line. -/
def traceWarnText (c : Bool) (caller slow ms rows sql rid : String) : String :=
  paint c logger.Green ++ caller ++ " " ++ paint c logger.Yellow ++ slow ++ "\t"
    ++ paint c logger.Reset ++ paint c logger.RedBold ++ "[" ++ ms ++ "ms] "
    ++ paint c logger.Yellow ++ "[rows:" ++ rows ++ "]" ++ paint c logger.Magenta
    ++ " " ++ sql ++ " req_id:" ++ rid ++ " " ++ paint c logger.Reset

/-- An error trace line. -/
def traceErrText (c : Bool) (caller err ms rows sql rid : String) : String :=
  paint c logger.RedBold ++ caller ++ " " ++ paint c logger.MagentaBold ++ err ++ "\t"
    ++ paint c logger.Reset ++ paint c logger.Yellow ++ "[" ++ ms ++ "ms] "
    ++ paint c logger.BlueBold ++ "[rows:" ++ rows ++ "]" ++ paint c logger.Reset
    ++ " " ++ sql ++ " req_id:" ++ rid ++ " "

/-- The request id of claim C11, `abc-123`, as a list of characters. -/
def needle : List Char := ['a', 'b', 'c', '-', '1', '2', '3']

/-- A block of template text that cuts a line for the count of `abc-123`: it starts with
a character foreign to `abc-123` and holds no `a`. -/
def sepBlock (l : List Char) : Bool :=
  match l with
  | [] => false
  | c :: cs => decide (c ∉ needle) && decide ('a' ∉ c :: cs)

/-! ## Counting lemmas -/

theorem printfCount_append {W : Type} (s t : World W) :
    printfCount (s ++ t) = printfCount s + printfCount t := by
  induction s with
  | nil => simp [printfCount]
  | cons e es ih =>
    cases e with
    | printf w f a => simp [printfCount, ih]; omega
    | fcCall => simp [printfCount, ih]

theorem fcCount_append {W : Type} (s t : World W) :
    fcCount (s ++ t) = fcCount s + fcCount t := by
  induction s with
  | nil => simp [fcCount]
  | cons e es ih =>
    cases e with
    | printf w f a => simp [fcCount, ih]
    | fcCall => simp [fcCount, ih]; omega

namespace withReqIdLogger

variable {W Ctx : Type}

/-- Every run of `Trace` is one of four: nothing, or a producer call followed by one of the
three lines, selected by the level and the two guards. -/
theorem Trace_eq (l : withReqIdLogger W Ctx) (env : Env) (ctx : Ctx) (begin : Int)
    (fc : Unit → String × Int) (err : Option GoError) (s : World W) :
    l.Trace env ctx begin fc err s =
      if l.LogLevel ≤ logger.Silent then s
      else match err with
        | some e =>
          if errCase l (some e) then s ++ [Event.fcCall, traceErrLine l env ctx begin fc e]
          else if slowCase l env begin then s ++ [Event.fcCall, traceSlowLine l env ctx begin fc]
          else if l.LogLevel = logger.Info then s ++ [Event.fcCall, traceLine l env ctx begin fc]
          else s
        | none =>
          if slowCase l env begin then s ++ [Event.fcCall, traceSlowLine l env ctx begin fc]
          else if l.LogLevel = logger.Info then s ++ [Event.fcCall, traceLine l env ctx begin fc]
          else s := by
  have hno : Trace.traceNoErr l env fc s (env.Since begin) (l.reqIdGetter ctx) =
      if slowCase l env begin then s ++ [Event.fcCall, traceSlowLine l env ctx begin fc]
      else if l.LogLevel = logger.Info then s ++ [Event.fcCall, traceLine l env ctx begin fc]
      else s := by
    unfold Trace.traceNoErr slowCase traceSlowLine traceLine callFc Printf rowsArg
    by_cases h1 : env.Since begin > l.SlowThreshold ∧ l.SlowThreshold ≠ 0
        ∧ l.LogLevel ≥ logger.Warn
    · obtain ⟨a, b, c⟩ := h1
      by_cases hr : (fc ()).2 = -1 <;> simp [a, b, c, hr]
    · have h1b : (decide (env.Since begin > l.SlowThreshold) && decide (l.SlowThreshold ≠ 0)
          && decide (l.LogLevel ≥ logger.Warn)) = false := by
        by_contra hc
        simp only [Bool.not_eq_false, Bool.and_eq_true, decide_eq_true_eq] at hc
        exact h1 ⟨hc.1.1, hc.1.2, hc.2⟩
      rw [if_neg h1, h1b]
      by_cases h2 : l.LogLevel = logger.Info
      · by_cases hr : (fc ()).2 = -1 <;> simp [h2, hr]
      · simp [h2]
  unfold Trace
  by_cases h0 : l.LogLevel ≤ logger.Silent
  · simp [h0]
  · rw [if_neg h0, if_neg h0]
    cases err with
    | none => simpa using hno
    | some e =>
      simp only []
      by_cases h1 : l.LogLevel ≥ logger.Error
          ∧ (!e.isRecordNotFound || !l.IgnoreRecordNotFoundError) = true
      · have h1b : errCase l (some e) = true := by
          simp only [errCase, Bool.and_eq_true, decide_eq_true_eq]; exact h1
        rw [if_pos h1, h1b]
        unfold traceErrLine callFc Printf rowsArg
        by_cases hr : (fc ()).2 = -1 <;> simp [hr]
      · have h1b : errCase l (some e) = false := by
          by_contra hc
          simp only [errCase, Bool.not_eq_false, Bool.and_eq_true, decide_eq_true_eq] at hc
          exact h1 hc
        rw [if_neg h1, h1b]
        simpa using hno

end withReqIdLogger

open withReqIdLogger

/-! ## Level guards of `Info`, `Warn`, `Error` -/

/-- C1: for every logger and every integer level, `Info` invokes the writer exactly once
when the level is at least `Info` (4) and not at all otherwise, `Warn` likewise with `Warn`
(3) and `Error` with `Error` (2); a call that fails its guard leaves the world as it was,
and none of the three ever invokes a producer. -/
theorem C1_level_guard {W Ctx : Type} (l : withReqIdLogger W Ctx) (env : Env) (ctx : Ctx)
    (msg : String) (data : List Arg) (s : World W) :
    printfCount (l.Info env ctx msg data s)
        = printfCount s + (if l.LogLevel ≥ 4 then 1 else 0)
    ∧ printfCount (l.Warn env ctx msg data s)
        = printfCount s + (if l.LogLevel ≥ 3 then 1 else 0)
    ∧ printfCount (l.Error env ctx msg data s)
        = printfCount s + (if l.LogLevel ≥ 2 then 1 else 0)
    ∧ (l.LogLevel ≥ 4 ∨ l.Info env ctx msg data s = s)
    ∧ (l.LogLevel ≥ 3 ∨ l.Warn env ctx msg data s = s)
    ∧ (l.LogLevel ≥ 2 ∨ l.Error env ctx msg data s = s) := by
  unfold Info Warn Error Printf logger.Info logger.Warn logger.Error
  refine ⟨?_, ?_, ?_, ?_, ?_, ?_⟩
  · by_cases h : l.LogLevel ≥ 4 <;> simp [h, printfCount_append, printfCount]
  · by_cases h : l.LogLevel ≥ 3 <;> simp [h, printfCount_append, printfCount]
  · by_cases h : l.LogLevel ≥ 2 <;> simp [h, printfCount_append, printfCount]
  · by_cases h : l.LogLevel ≥ 4
    · exact Or.inl h
    · exact Or.inr (if_neg h)
  · by_cases h : l.LogLevel ≥ 3
    · exact Or.inl h
    · exact Or.inr (if_neg h)
  · by_cases h : l.LogLevel ≥ 2
    · exact Or.inl h
    · exact Or.inr (if_neg h)

/-! ## `Trace` -/

/-- C2: at level `Silent`, whatever the start time, the error and the producer, `Trace`
leaves the world as it was: the producer is not invoked and the writer is not invoked. -/
theorem C2_trace_silent {W Ctx : Type} (l : withReqIdLogger W Ctx) (env : Env) (ctx : Ctx)
    (begin : Int) (fc : Unit → String × Int) (err : Option GoError) (s : World W)
    (hlevel : l.LogLevel = logger.Silent) :
    l.Trace env ctx begin fc err s = s
    ∧ fcCount (l.Trace env ctx begin fc err s) = fcCount s
    ∧ printfCount (l.Trace env ctx begin fc err s) = printfCount s := by
  have h : l.Trace env ctx begin fc err s = s := by
    rw [Trace_eq, if_pos (le_of_eq hlevel)]
  rw [h]
  exact ⟨rfl, rfl, rfl⟩

/-- Witness of C2: a silent logger handed a failing query that took 5 ms. -/
theorem C2_trace_silent_witness :
    (sampleLogger 1 false).LogLevel = logger.Silent
    ∧ (sampleLogger 1 false).Trace sampleEnv "r-1" 0 sampleFc (some sampleFailure) [] = []
    ∧ fcCount ((sampleLogger 1 false).Trace sampleEnv "r-1" 0 sampleFc (some sampleFailure) [])
        = fcCount ([] : World Unit)
    ∧ printfCount
        ((sampleLogger 1 false).Trace sampleEnv "r-1" 0 sampleFc (some sampleFailure) [])
        = printfCount ([] : World Unit) :=
  ⟨rfl, C2_trace_silent (sampleLogger 1 false) sampleEnv "r-1" 0 sampleFc
    (some sampleFailure) [] rfl⟩

/-- The error line differs from the slow-query line: their second arguments differ. -/
theorem traceErrLine_ne_traceSlowLine {W Ctx : Type} (l : withReqIdLogger W Ctx) (env : Env)
    (ctx : Ctx) (begin : Int) (fc : Unit → String × Int) (e : GoError) :
    traceErrLine l env ctx begin fc e ≠ traceSlowLine l env ctx begin fc := by
  simp [traceErrLine, traceSlowLine]

/-- The error line differs from the normal line: it has one argument more. -/
theorem traceErrLine_ne_traceLine {W Ctx : Type} (l : withReqIdLogger W Ctx) (env : Env)
    (ctx : Ctx) (begin : Int) (fc : Unit → String × Int) (e : GoError) :
    traceErrLine l env ctx begin fc e ≠ traceLine l env ctx begin fc := by
  simp [traceErrLine, traceLine]

/-- The slow-query line differs from the normal line: it has one argument more. -/
theorem traceSlowLine_ne_traceLine {W Ctx : Type} (l : withReqIdLogger W Ctx) (env : Env)
    (ctx : Ctx) (begin : Int) (fc : Unit → String × Int) :
    traceSlowLine l env ctx begin fc ≠ traceLine l env ctx begin fc := by
  simp [traceSlowLine, traceLine]

/-- C3: at a level of at least `Error`, with a non-nil error that is not record-not-found,
`Trace` calls the producer and then writes exactly one line, the trace-error line carrying
the error as its second argument, whatever the elapsed time and the slow threshold; that
line is not the slow-query line. -/
theorem C3_error_branch_priority {W Ctx : Type} (l : withReqIdLogger W Ctx) (env : Env)
    (ctx : Ctx) (begin : Int) (fc : Unit → String × Int) (e : GoError) (s : World W)
    (hlevel : l.LogLevel ≥ logger.Error) (hrnf : e.isRecordNotFound = false) :
    l.Trace env ctx begin fc (some e) s
        = s ++ [Event.fcCall, Event.printf l.Writer l.traceErrStr
            [Arg.str env.FileWithLineNum, Arg.error e,
              Arg.float64Div (env.Since begin) 1000000, rowsArg (fc ()).2,
              Arg.str (fc ()).1, Arg.str (l.reqIdGetter ctx)]]
    ∧ printfCount (l.Trace env ctx begin fc (some e) s) = printfCount s + 1
    ∧ traceSlowLine l env ctx begin fc ∉
        [Event.fcCall, Event.printf l.Writer l.traceErrStr
            [Arg.str env.FileWithLineNum, Arg.error e,
              Arg.float64Div (env.Since begin) 1000000, rowsArg (fc ()).2,
              Arg.str (fc ()).1, Arg.str (l.reqIdGetter ctx)]] := by
  have h0 : ¬ l.LogLevel ≤ logger.Silent := by
    unfold logger.Error at hlevel
    unfold logger.Silent
    omega
  have h1 : errCase l (some e) = true := by
    simp [errCase, hrnf, hlevel]
  have h : l.Trace env ctx begin fc (some e) s
      = s ++ [Event.fcCall, traceErrLine l env ctx begin fc e] := by
    rw [Trace_eq, if_neg h0]
    simp [h1]
  refine ⟨h, ?_, ?_⟩
  · rw [h]
    simp [printfCount_append, printfCount, traceErrLine]
  · simp [traceSlowLine]

/-- Witness of C3: level `Info`, a 5 ms query against a 1 ms threshold, a failing query:
the slow-query condition holds as well, and the error line is the one written. -/
theorem C3_error_branch_priority_witness :
    (sampleLogger 4 false).Trace sampleEnv "r-1" 0 sampleFc (some sampleFailure) []
      = [Event.fcCall, Event.printf () "%s %s\t[%.3fms] [rows:%v] %s req_id:%s "
          [Arg.str "main.go:10", Arg.error sampleFailure, Arg.float64Div 5000000 1000000,
            Arg.int64 3, Arg.str "SELECT 1", Arg.str "r-1"]]
    ∧ slowCase (sampleLogger 4 false) sampleEnv 0 = true :=
  ⟨(C3_error_branch_priority (sampleLogger 4 false) sampleEnv "r-1" 0 sampleFc sampleFailure []
    (by decide) rfl).1, by decide⟩

/-- With a nil error `Trace` is the slow-query branch, else the normal branch, else nothing. -/
theorem Trace_none {W Ctx : Type} (l : withReqIdLogger W Ctx) (env : Env) (ctx : Ctx)
    (begin : Int) (fc : Unit → String × Int) (s : World W) :
    l.Trace env ctx begin fc none s
      = (if env.Since begin > l.SlowThreshold ∧ l.SlowThreshold ≠ 0 ∧ l.LogLevel ≥ logger.Warn
          then s ++ [Event.fcCall, traceSlowLine l env ctx begin fc]
        else if l.LogLevel = logger.Info
          then s ++ [Event.fcCall, traceLine l env ctx begin fc]
        else s) := by
  rw [Trace_eq]
  by_cases h0 : l.LogLevel ≤ logger.Silent
  · have h3 : ¬ l.LogLevel ≥ logger.Warn := by
      unfold logger.Silent at h0
      unfold logger.Warn
      omega
    have h4 : ¬ l.LogLevel = logger.Info := by
      unfold logger.Silent at h0
      unfold logger.Info
      omega
    simp [h0, h3, h4]
  · by_cases hc : env.Since begin > l.SlowThreshold ∧ l.SlowThreshold ≠ 0
        ∧ l.LogLevel ≥ logger.Warn
    · have hs : slowCase l env begin = true := by
        simp only [slowCase, Bool.and_eq_true, decide_eq_true_eq]
        exact ⟨⟨hc.1, hc.2.1⟩, hc.2.2⟩
      simp [h0, hc, hs]
    · have hs : slowCase l env begin = false := by
        by_contra hn
        simp only [slowCase, Bool.not_eq_false, Bool.and_eq_true, decide_eq_true_eq] at hn
        exact hc ⟨hn.1.1, hn.1.2, hn.2⟩
      simp only [if_neg h0, hs, if_neg hc]
      simp

/-- When the error branch does not match, the error plays no part in `Trace`. -/
theorem Trace_of_errCase_false {W Ctx : Type} (l : withReqIdLogger W Ctx) (env : Env)
    (ctx : Ctx) (begin : Int) (fc : Unit → String × Int) (err : Option GoError) (s : World W)
    (herr : errCase l err = false) :
    l.Trace env ctx begin fc err s = l.Trace env ctx begin fc none s := by
  cases err with
  | none => rfl
  | some e =>
    rw [Trace_eq, Trace_eq]
    simp [herr]

/-- C4: at a level of at least `Error` and with a record-not-found error, `Trace` behaves,
when `IgnoreRecordNotFoundError` is set, exactly as the same call with a nil error (the
slow-query line if elapsed exceeds a non-zero threshold and the level is at least `Warn`,
else the normal line if the level is `Info`, else nothing) and the trace-error line is not
among what it writes; when the flag is not set, it takes the error branch. -/
theorem C4_ignore_record_not_found {W Ctx : Type} (l : withReqIdLogger W Ctx) (env : Env)
    (ctx : Ctx) (begin : Int) (fc : Unit → String × Int) (e : GoError) (s : World W)
    (hlevel : l.LogLevel ≥ logger.Error) (hrnf : e.isRecordNotFound = true) :
    l.Trace env ctx begin fc (some e) s
      = (if l.IgnoreRecordNotFoundError = true then l.Trace env ctx begin fc none s
        else s ++ [Event.fcCall, traceErrLine l env ctx begin fc e])
    ∧ l.Trace env ctx begin fc none s
      = (if env.Since begin > l.SlowThreshold ∧ l.SlowThreshold ≠ 0 ∧ l.LogLevel ≥ logger.Warn
          then s ++ [Event.fcCall, traceSlowLine l env ctx begin fc]
        else if l.LogLevel = logger.Info
          then s ++ [Event.fcCall, traceLine l env ctx begin fc]
        else s)
    ∧ (l.IgnoreRecordNotFoundError = true →
        ∀ t, l.Trace env ctx begin fc (some e) s = s ++ t →
          traceErrLine l env ctx begin fc e ∉ t) := by
  have h0 : ¬ l.LogLevel ≤ logger.Silent := by
    unfold logger.Error at hlevel
    unfold logger.Silent
    omega
  refine ⟨?_, Trace_none l env ctx begin fc s, ?_⟩
  · by_cases hi : l.IgnoreRecordNotFoundError = true
    · have h1 : errCase l (some e) = false := by
        simp [errCase, hrnf, hi]
      rw [if_pos hi]
      exact Trace_of_errCase_false l env ctx begin fc (some e) s h1
    · have h1 : errCase l (some e) = true := by
        simp [errCase, hrnf, hi, hlevel]
      rw [if_neg hi, Trace_eq, if_neg h0]
      simp [h1]
  · intro hi t ht
    have h1 : errCase l (some e) = false := by
      simp [errCase, hrnf, hi]
    rw [Trace_of_errCase_false l env ctx begin fc (some e) s h1, Trace_none] at ht
    have hes := traceErrLine_ne_traceSlowLine l env ctx begin fc e
    have hel := traceErrLine_ne_traceLine l env ctx begin fc e
    have hef : traceErrLine l env ctx begin fc e ≠ Event.fcCall := by simp [traceErrLine]
    split_ifs at ht with ha hb
    · have := List.append_cancel_left ht
      subst this
      simp [hes, hef]
    · have := List.append_cancel_left ht
      subst this
      simp [hel, hef]
    · have : t = [] := by simpa using ht
      subst this
      simp

/-- Witness of C4: a record-not-found error at level `Info` on a 5 ms query against a 1 ms
threshold. With the flag set the slow-query line is written; without it, the error line. -/
theorem C4_ignore_record_not_found_witness :
    (sampleLogger 4 true).Trace sampleEnv "r-1" 0 sampleFc (some sampleNotFound) []
      = [Event.fcCall, traceSlowLine (sampleLogger 4 true) sampleEnv "r-1" 0 sampleFc]
    ∧ (sampleLogger 4 false).Trace sampleEnv "r-1" 0 sampleFc (some sampleNotFound) []
      = [Event.fcCall, traceErrLine (sampleLogger 4 false) sampleEnv "r-1" 0 sampleFc
          sampleNotFound] := by
  exact ⟨(C4_ignore_record_not_found (sampleLogger 4 true) sampleEnv "r-1" 0 sampleFc
      sampleNotFound [] (by decide) rfl).1.trans rfl,
    (C4_ignore_record_not_found (sampleLogger 4 false) sampleEnv "r-1" 0 sampleFc
      sampleNotFound [] (by decide) rfl).1.trans rfl⟩

/-- The guard of the slow-query branch, read as a proposition. -/
theorem slowCase_iff {W Ctx : Type} (l : withReqIdLogger W Ctx) (env : Env) (begin : Int) :
    slowCase l env begin = true
      ↔ (env.Since begin > l.SlowThreshold ∧ l.SlowThreshold ≠ 0 ∧ l.LogLevel ≥ logger.Warn) := by
  simp only [slowCase, Bool.and_eq_true, decide_eq_true_eq]
  constructor
  · rintro ⟨⟨a, b⟩, c⟩
    exact ⟨a, b, c⟩
  · rintro ⟨a, b, c⟩
    exact ⟨⟨a, b⟩, c⟩

/-- C5: when neither the error branch nor the slow-query branch of `Trace` matches, the
producer is called and the normal trace line is written (once each) if the level is exactly
`Info` (4); at every other level, below or above, nothing is written and the producer is
not called. -/
theorem C5_normal_branch_exact_info {W Ctx : Type} (l : withReqIdLogger W Ctx) (env : Env)
    (ctx : Ctx) (begin : Int) (fc : Unit → String × Int) (err : Option GoError) (s : World W)
    (herr : errCase l err = false) (hslow : slowCase l env begin = false) :
    l.Trace env ctx begin fc err s
      = (if l.LogLevel = 4 then
          s ++ [Event.fcCall, Event.printf l.Writer l.traceStr
            [Arg.str env.FileWithLineNum, Arg.float64Div (env.Since begin) 1000000,
              rowsArg (fc ()).2, Arg.str (fc ()).1, Arg.str (l.reqIdGetter ctx)]]
        else s)
    ∧ printfCount (l.Trace env ctx begin fc err s)
      = printfCount s + (if l.LogLevel = 4 then 1 else 0)
    ∧ fcCount (l.Trace env ctx begin fc err s)
      = fcCount s + (if l.LogLevel = 4 then 1 else 0) := by
  have hc : ¬ (env.Since begin > l.SlowThreshold ∧ l.SlowThreshold ≠ 0
      ∧ l.LogLevel ≥ logger.Warn) := by
    rw [← slowCase_iff, hslow]
    simp
  have h : l.Trace env ctx begin fc err s
      = (if l.LogLevel = 4 then s ++ [Event.fcCall, traceLine l env ctx begin fc] else s) := by
    rw [Trace_of_errCase_false l env ctx begin fc err s herr, Trace_none, if_neg hc]
    rfl
  refine ⟨h, ?_, ?_⟩
  · rw [h]
    by_cases h4 : l.LogLevel = 4 <;>
      simp [h4, printfCount_append, printfCount, traceLine]
  · rw [h]
    by_cases h4 : l.LogLevel = 4 <;>
      simp [h4, fcCount_append, fcCount, traceLine]

/-- Witness of C5: at level `Error` a 5 ms query without error is below the level of the
slow-query branch, and nothing is written: the normal branch needs level `Info` exactly. -/
theorem C5_normal_branch_exact_info_witness :
    (sampleLogger 2 false).Trace sampleEnv "r-1" 0 sampleFc none [] = []
    ∧ printfCount ((sampleLogger 2 false).Trace sampleEnv "r-1" 0 sampleFc none []) = 0
    ∧ fcCount ((sampleLogger 2 false).Trace sampleEnv "r-1" 0 sampleFc none []) = 0 :=
  C5_normal_branch_exact_info (sampleLogger 2 false) sampleEnv "r-1" 0 sampleFc none []
    rfl (by decide)

/-- C6: when the error branch of `Trace` does not match, the slow-query line (the
trace-slow-warning template, with second argument the text `SLOW SQL >= ` followed by the
rendered threshold) is written if and only if elapsed exceeds the threshold, the threshold
is not zero, and the level is at least `Warn`; so a zero threshold, or an elapsed time equal
to the threshold, never produces it. -/
theorem C6_slow_branch {W Ctx : Type} (l : withReqIdLogger W Ctx) (env : Env)
    (ctx : Ctx) (begin : Int) (fc : Unit → String × Int) (err : Option GoError) (s : World W)
    (herr : errCase l err = false) :
    (l.Trace env ctx begin fc err s
        = s ++ [Event.fcCall, Event.printf l.Writer l.traceWarnStr
            [Arg.str env.FileWithLineNum,
              Arg.str ("SLOW SQL >= " ++ env.durationString l.SlowThreshold),
              Arg.float64Div (env.Since begin) 1000000, rowsArg (fc ()).2,
              Arg.str (fc ()).1, Arg.str (l.reqIdGetter ctx)]]
      ↔ (env.Since begin > l.SlowThreshold ∧ l.SlowThreshold ≠ 0 ∧ l.LogLevel ≥ 3))
    ∧ (∀ t, l.Trace env ctx begin fc err s = s ++ t →
        ((∃ args, Event.printf l.Writer l.traceWarnStr
            (Arg.str env.FileWithLineNum
              :: Arg.str ("SLOW SQL >= " ++ env.durationString l.SlowThreshold) :: args) ∈ t)
          ↔ (env.Since begin > l.SlowThreshold ∧ l.SlowThreshold ≠ 0 ∧ l.LogLevel ≥ 3)))
    ∧ (l.SlowThreshold = 0 →
        ∀ t, l.Trace env ctx begin fc err s = s ++ t →
          traceSlowLine l env ctx begin fc ∉ t)
    ∧ (env.Since begin = l.SlowThreshold →
        ∀ t, l.Trace env ctx begin fc err s = s ++ t →
          traceSlowLine l env ctx begin fc ∉ t) := by
  have hT := Trace_of_errCase_false l env ctx begin fc err s herr
  have hN := Trace_none l env ctx begin fc s
  have key : ∀ t, l.Trace env ctx begin fc err s = s ++ t →
      ¬ (env.Since begin > l.SlowThreshold ∧ l.SlowThreshold ≠ 0 ∧ l.LogLevel ≥ logger.Warn) →
      t = [] ∨ t = [Event.fcCall, traceLine l env ctx begin fc] := by
    intro t ht hc
    rw [hT, hN, if_neg hc] at ht
    split_ifs at ht with hb
    · exact Or.inr (List.append_cancel_left ht).symm
    · exact Or.inl (by simpa using ht)
  have pos : (env.Since begin > l.SlowThreshold ∧ l.SlowThreshold ≠ 0
      ∧ l.LogLevel ≥ logger.Warn) →
      l.Trace env ctx begin fc err s
        = s ++ [Event.fcCall, traceSlowLine l env ctx begin fc] := by
    intro hc
    rw [hT, hN, if_pos hc]
  refine ⟨?_, ?_, ?_, ?_⟩
  · constructor
    · intro h
      by_contra hc
      rcases key _ h hc with h1 | h1
      · simp at h1
      · simp [traceLine] at h1
    · exact pos
  · intro t ht
    constructor
    · rintro ⟨args, hmem⟩
      by_contra hc
      rcases key t ht hc with h1 | h1
      · subst h1
        simp at hmem
      · subst h1
        simp [traceLine] at hmem
    · intro hc
      have h1 := List.append_cancel_left ((pos hc).symm.trans ht)
      subst h1
      exact ⟨[Arg.float64Div (env.Since begin) 1000000, rowsArg (fc ()).2,
        Arg.str (fc ()).1, Arg.str (l.reqIdGetter ctx)], by simp [traceSlowLine]⟩
  · intro hz t ht
    have hc : ¬ (env.Since begin > l.SlowThreshold ∧ l.SlowThreshold ≠ 0
        ∧ l.LogLevel ≥ logger.Warn) := fun h => h.2.1 hz
    rcases key t ht hc with h1 | h1
    · subst h1
      simp
    · subst h1
      simp [traceSlowLine, traceLine]
  · intro hz t ht
    have hc : ¬ (env.Since begin > l.SlowThreshold ∧ l.SlowThreshold ≠ 0
        ∧ l.LogLevel ≥ logger.Warn) := fun h => absurd hz (ne_of_gt h.1)
    rcases key t ht hc with h1 | h1
    · subst h1
      simp
    · subst h1
      simp [traceSlowLine, traceLine]

/-- Witness of C6: no error, level `Warn`, a 5 ms query against a 1 ms threshold: the
slow-query line is written, its second argument naming the threshold. -/
theorem C6_slow_branch_witness :
    (sampleLogger 3 false).Trace sampleEnv "r-1" 0 sampleFc none []
      = [Event.fcCall, Event.printf () "%s %s\t[%.3fms] [rows:%v] %s req_id:%s "
          [Arg.str "main.go:10", Arg.str "SLOW SQL >= 1000000ns",
            Arg.float64Div 5000000 1000000, Arg.int64 3, Arg.str "SELECT 1", Arg.str "r-1"]] :=
  ((C6_slow_branch (sampleLogger 3 false) sampleEnv "r-1" 0 sampleFc none [] rfl).1.mpr
    (by decide)).trans (by decide)

/-- C7: a single `Trace` call invokes the producer at most once and the writer at most
once, and invokes the one exactly as often as the other: the producer is called if and
only if a line is written. -/
theorem C7_deferred_producer {W Ctx : Type} (l : withReqIdLogger W Ctx) (env : Env)
    (ctx : Ctx) (begin : Int) (fc : Unit → String × Int) (err : Option GoError) (s : World W) :
    ∃ k : Nat, k ≤ 1
      ∧ fcCount (l.Trace env ctx begin fc err s) = fcCount s + k
      ∧ printfCount (l.Trace env ctx begin fc err s) = printfCount s + k := by
  rw [Trace_eq]
  by_cases h0 : l.LogLevel ≤ logger.Silent
  · exact ⟨0, by omega, by simp [h0], by simp [h0]⟩
  · rw [if_neg h0]
    cases err with
    | none =>
      simp only []
      split_ifs
      · exact ⟨1, le_refl 1, by simp [fcCount_append, fcCount, traceSlowLine],
          by simp [printfCount_append, printfCount, traceSlowLine]⟩
      · exact ⟨1, le_refl 1, by simp [fcCount_append, fcCount, traceLine],
          by simp [printfCount_append, printfCount, traceLine]⟩
      · exact ⟨0, by omega, rfl, rfl⟩
    | some e =>
      simp only []
      split_ifs
      · exact ⟨1, le_refl 1, by simp [fcCount_append, fcCount, traceErrLine],
          by simp [printfCount_append, printfCount, traceErrLine]⟩
      · exact ⟨1, le_refl 1, by simp [fcCount_append, fcCount, traceSlowLine],
          by simp [printfCount_append, printfCount, traceSlowLine]⟩
      · exact ⟨1, le_refl 1, by simp [fcCount_append, fcCount, traceLine],
          by simp [printfCount_append, printfCount, traceLine]⟩
      · exact ⟨0, by omega, rfl, rfl⟩

/-! ## `LogMode` -/

/-- A chain of `LogMode` calls keeps every field but the level. -/
theorem foldl_LogMode_frame {W Ctx : Type} (vs : List Int) (l : withReqIdLogger W Ctx) :
    (vs.foldl LogMode l).Writer = l.Writer
    ∧ (vs.foldl LogMode l).infoStr = l.infoStr
    ∧ (vs.foldl LogMode l).warnStr = l.warnStr
    ∧ (vs.foldl LogMode l).errStr = l.errStr
    ∧ (vs.foldl LogMode l).traceStr = l.traceStr
    ∧ (vs.foldl LogMode l).traceWarnStr = l.traceWarnStr
    ∧ (vs.foldl LogMode l).traceErrStr = l.traceErrStr
    ∧ (vs.foldl LogMode l).reqIdGetter = l.reqIdGetter
    ∧ (vs.foldl LogMode l).Config.Colorful = l.Config.Colorful := by
  induction vs generalizing l with
  | nil => simp
  | cons v vs ih =>
    rw [List.foldl_cons]
    have h := ih (l.LogMode v)
    simpa [LogMode] using h

/-- C8: `l.LogMode(v)` has level `v` and the writer, slow threshold, colorful flag,
ignore-record-not-found flag, six templates and request-id getter of `l`; so after any
chain of `LogMode` calls on a logger built by `New` the six templates are still the ones
`New` chose from the colorful flag. -/
theorem C8_LogMode_frame {W Ctx : Type} (l : withReqIdLogger W Ctx) (v : Int) (writer : W)
    (config : logger.Config) (getter : Option (ReqIdGetter Ctx)) (vs : List Int) :
    ((l.LogMode v).LogLevel = v
      ∧ (l.LogMode v).Writer = l.Writer
      ∧ (l.LogMode v).SlowThreshold = l.SlowThreshold
      ∧ (l.LogMode v).Config.Colorful = l.Config.Colorful
      ∧ (l.LogMode v).IgnoreRecordNotFoundError = l.IgnoreRecordNotFoundError
      ∧ (l.LogMode v).infoStr = l.infoStr
      ∧ (l.LogMode v).warnStr = l.warnStr
      ∧ (l.LogMode v).errStr = l.errStr
      ∧ (l.LogMode v).traceStr = l.traceStr
      ∧ (l.LogMode v).traceWarnStr = l.traceWarnStr
      ∧ (l.LogMode v).traceErrStr = l.traceErrStr
      ∧ (l.LogMode v).reqIdGetter = l.reqIdGetter)
    ∧ ((vs.foldl LogMode (New writer config getter)).infoStr
          = (New writer config getter).infoStr
      ∧ (vs.foldl LogMode (New writer config getter)).warnStr
          = (New writer config getter).warnStr
      ∧ (vs.foldl LogMode (New writer config getter)).errStr
          = (New writer config getter).errStr
      ∧ (vs.foldl LogMode (New writer config getter)).traceStr
          = (New writer config getter).traceStr
      ∧ (vs.foldl LogMode (New writer config getter)).traceWarnStr
          = (New writer config getter).traceWarnStr
      ∧ (vs.foldl LogMode (New writer config getter)).traceErrStr
          = (New writer config getter).traceErrStr
      ∧ (vs.foldl LogMode (New writer config getter)).Config.Colorful = config.Colorful) := by
  refine ⟨⟨rfl, rfl, rfl, rfl, rfl, rfl, rfl, rfl, rfl, rfl, rfl, rfl⟩, ?_⟩
  obtain ⟨-, h2, h3, h4, h5, h6, h7, -, h9⟩ := foldl_LogMode_frame vs (New writer config getter)
  exact ⟨h2, h3, h4, h5, h6, h7, h9⟩

/-- C9: `LogMode` does not change its receiver. For a receiver address `p` holding `l`, the
call succeeds, returns a fresh address holding the copy with the new level, and leaves
every cell of the store, the receiver's among them, as it was: the level read through `p`
is the old one and `Info`, `Warn`, `Error` and `Trace` through `p` behave as before. -/
theorem C9_LogMode_receiver_unchanged {W Ctx : Type} (store : List (withReqIdLogger W Ctx))
    (p : Nat) (l : withReqIdLogger W Ctx) (v : Int) (env : Env) (ctx : Ctx) (msg : String)
    (data : List Arg) (begin : Int) (fc : Unit → String × Int) (err : Option GoError)
    (s : World W) (hp : store[p]? = some l) :
    ∃ store1 q, LogModePtr store p v = some (store1, q)
      ∧ q ≠ p
      ∧ store1[q]? = some (l.LogMode v)
      ∧ store1[p]? = some l
      ∧ (∀ i, i < store.length → store1[i]? = store[i]?)
      ∧ store1[p]?.map (fun r => r.LogLevel) = some l.LogLevel
      ∧ store1[p]?.map (fun r => r.Info env ctx msg data s) = some (l.Info env ctx msg data s)
      ∧ store1[p]?.map (fun r => r.Warn env ctx msg data s) = some (l.Warn env ctx msg data s)
      ∧ store1[p]?.map (fun r => r.Error env ctx msg data s)
          = some (l.Error env ctx msg data s)
      ∧ store1[p]?.map (fun r => r.Trace env ctx begin fc err s)
          = some (l.Trace env ctx begin fc err s) := by
  have hlt : p < store.length := by
    by_contra hge
    rw [List.getElem?_eq_none (by omega)] at hp
    exact Option.noConfusion hp
  have hkeep : ∀ i, i < store.length → (store ++ [l.LogMode v])[i]? = store[i]? := by
    intro i hi
    exact List.getElem?_append_left hi
  have hp1 : (store ++ [l.LogMode v])[p]? = some l := by
    rw [hkeep p hlt, hp]
  refine ⟨store ++ [l.LogMode v], store.length, ?_, ?_, ?_, hp1, hkeep, ?_, ?_, ?_, ?_, ?_⟩
  · simp [LogModePtr, hp]
  · omega
  · simp
  · rw [hp1]; rfl
  · rw [hp1]; rfl
  · rw [hp1]; rfl
  · rw [hp1]; rfl
  · rw [hp1]; rfl

/-- Witness of C9: a store holding one logger at level `Info`; `LogMode(Silent)` through its
address returns address 1 and the logger at address 0 still has level `Info`. -/
theorem C9_LogMode_receiver_unchanged_witness :
    [sampleLogger 4 false][0]? = some (sampleLogger 4 false)
    ∧ ∃ store1 q, LogModePtr [sampleLogger 4 false] 0 1 = some (store1, q)
      ∧ q ≠ 0
      ∧ store1[0]?.map (fun r => r.LogLevel) = some 4 := by
  obtain ⟨store1, q, h1, h2, -, -, -, h6, -⟩ :=
    C9_LogMode_receiver_unchanged [sampleLogger 4 false] 0 (sampleLogger 4 false) 1
      sampleEnv "r-1" "" [] 0 sampleFc none [] rfl
  exact ⟨rfl, store1, q, h1, h2, h6⟩

/-! ## Shape of the line written by `Info`, `Warn`, `Error` -/

/-- C10: on a logger built by `New`, at whatever level `LogMode` has set, `Info` (resp.
`Warn`, `Error`), when it passes its level guard, makes a single call to the writer given to
`New`, whose format is the info (resp. warn, error) template chosen by `New` followed by the
message, and whose arguments are the caller location, the getter applied to the context of
this call, and then the data arguments in their order; otherwise it does nothing. -/
theorem C10_guarded_write_shape {W Ctx : Type} (writer : W) (config : logger.Config)
    (getter : Option (ReqIdGetter Ctx)) (v : Int) (env : Env) (ctx : Ctx) (msg : String)
    (data : List Arg) (s : World W) :
    ((New writer config getter).LogMode v).Info env ctx msg data s
      = (if v ≥ 4 then
          s ++ [Event.printf writer ((New writer config getter).infoStr ++ msg)
            ([Arg.str env.FileWithLineNum,
              Arg.str ((New writer config getter).reqIdGetter ctx)] ++ data)]
        else s)
    ∧ ((New writer config getter).LogMode v).Warn env ctx msg data s
      = (if v ≥ 3 then
          s ++ [Event.printf writer ((New writer config getter).warnStr ++ msg)
            ([Arg.str env.FileWithLineNum,
              Arg.str ((New writer config getter).reqIdGetter ctx)] ++ data)]
        else s)
    ∧ ((New writer config getter).LogMode v).Error env ctx msg data s
      = (if v ≥ 2 then
          s ++ [Event.printf writer ((New writer config getter).errStr ++ msg)
            ([Arg.str env.FileWithLineNum,
              Arg.str ((New writer config getter).reqIdGetter ctx)] ++ data)]
        else s)
    ∧ (New writer config getter).LogMode config.LogLevel = New writer config getter := by
  exact ⟨rfl, rfl, rfl, rfl⟩

/-! ## What `Trace` can write -/

/-- Every call recorded by `Trace` is the producer call or one of the three lines. -/
theorem mem_Trace {W Ctx : Type} (l : withReqIdLogger W Ctx) (env : Env) (ctx : Ctx)
    (begin : Int) (fc : Unit → String × Int) (err : Option GoError) (ev : Event W)
    (h : ev ∈ l.Trace env ctx begin fc err []) :
    ev = Event.fcCall
    ∨ (∃ e, err = some e ∧ ev = traceErrLine l env ctx begin fc e)
    ∨ ev = traceSlowLine l env ctx begin fc
    ∨ ev = traceLine l env ctx begin fc := by
  rw [Trace_eq] at h
  by_cases h0 : l.LogLevel ≤ logger.Silent
  · simp [h0] at h
  · rw [if_neg h0] at h
    cases err with
    | none =>
      simp only [] at h
      split_ifs at h
      · simp at h
        rcases h with h | h
        · exact Or.inl h
        · exact Or.inr (Or.inr (Or.inl h))
      · simp at h
        rcases h with h | h
        · exact Or.inl h
        · exact Or.inr (Or.inr (Or.inr h))
      · simp at h
    | some e =>
      simp only [] at h
      split_ifs at h
      · simp at h
        rcases h with h | h
        · exact Or.inl h
        · exact Or.inr (Or.inl ⟨e, rfl, h⟩)
      · simp at h
        rcases h with h | h
        · exact Or.inl h
        · exact Or.inr (Or.inr (Or.inl h))
      · simp at h
        rcases h with h | h
        · exact Or.inl h
        · exact Or.inr (Or.inr (Or.inr h))
      · simp at h

/-! ## Redundancy of the level conjunct -/

/-- C19: `Trace` equals the same function with the conjunct `level >= Error` removed from
the error branch. At every level above `Silent`, a non-nil error that is not record-not-found,
or any error when `IgnoreRecordNotFoundError` is unset, gives exactly one trace-error line;
at every level up to `Silent` (zero and the negatives among them) `Trace`, `Info`, `Warn`
and `Error` write nothing. -/
theorem C19_level_conjunct_redundant {W Ctx : Type} (l : withReqIdLogger W Ctx) (env : Env)
    (ctx : Ctx) (begin : Int) (fc : Unit → String × Int) (err : Option GoError)
    (msg : String) (data : List Arg) (s : World W) :
    l.Trace env ctx begin fc err s = l.TraceWithoutLevelConjunct env ctx begin fc err s
    ∧ (¬ l.LogLevel ≤ 1 → ∀ e, err = some e →
        (e.isRecordNotFound = false ∨ l.IgnoreRecordNotFoundError = false) →
        l.Trace env ctx begin fc err s = s ++ [Event.fcCall, traceErrLine l env ctx begin fc e]
        ∧ printfCount (l.Trace env ctx begin fc err s) = printfCount s + 1)
    ∧ (l.LogLevel ≤ 1 →
        l.Trace env ctx begin fc err s = s
        ∧ l.Info env ctx msg data s = s
        ∧ l.Warn env ctx msg data s = s
        ∧ l.Error env ctx msg data s = s) := by
  refine ⟨?_, ?_, ?_⟩
  · unfold Trace TraceWithoutLevelConjunct
    by_cases h0 : l.LogLevel ≤ logger.Silent
    · simp [h0]
    · have h2 : l.LogLevel ≥ logger.Error := by
        unfold logger.Silent at h0
        unfold logger.Error
        omega
      rw [if_neg h0, if_neg h0]
      cases err with
      | none => rfl
      | some e =>
        simp only [h2, true_and]
  · intro h0 e he hg
    subst he
    have h1 : errCase l (some e) = true := by
      have h2 : l.LogLevel ≥ logger.Error := by
        unfold logger.Error
        omega
      rcases hg with hg | hg <;> simp [errCase, hg, h2]
    have h : l.Trace env ctx begin fc (some e) s
        = s ++ [Event.fcCall, traceErrLine l env ctx begin fc e] := by
      rw [Trace_eq, if_neg (by unfold logger.Silent; exact h0)]
      simp [h1]
    refine ⟨h, ?_⟩
    rw [h]
    simp [printfCount_append, printfCount, traceErrLine]
  · intro h0
    refine ⟨?_, ?_, ?_, ?_⟩
    · rw [Trace_eq, if_pos (by unfold logger.Silent; exact h0)]
    · unfold Info logger.Info
      rw [if_neg (by omega)]
    · unfold Warn logger.Warn
      rw [if_neg (by omega)]
    · unfold Error logger.Error
      rw [if_neg (by omega)]

/-! ## The templates -/

set_option maxRecDepth 4000

/-- The templates `New` builds depend on the colorful flag of the configuration only. -/
theorem templates_New {W Ctx : Type} (writer : W) (config : logger.Config)
    (getter : Option (ReqIdGetter Ctx)) :
    templates (New writer config getter) = templatesOf config.Colorful := by
  cases h : config.Colorful <;> simp [templates, templatesOf, New, h]

/-- `LogMode` keeps the templates. -/
theorem templates_LogMode {W Ctx : Type} (l : withReqIdLogger W Ctx) (v : Int) :
    templates (l.LogMode v) = templates l := rfl

/-- The directives of the six templates, the same in both sets. -/
theorem directives_templatesOf (colorful : Bool) :
    (templatesOf colorful).map (fun t => directives none t.data)
      = [[([], 's'), ([], 's')], [([], 's'), ([], 's')], [([], 's'), ([], 's')],
          [([], 's'), (['.', '3'], 'f'), ([], 'v'), ([], 's'), ([], 's')],
          [([], 's'), ([], 's'), (['.', '3'], 'f'), ([], 'v'), ([], 's'), ([], 's')],
          [([], 's'), ([], 's'), (['.', '3'], 'f'), ([], 'v'), ([], 's'), ([], 's')]] := by
  cases colorful <;> decide

/-- C16: deleting the gorm colour escape sequences from each of the six colorful templates
gives the plain template of the same kind, and the six templates of a logger built by `New`
are those of the set named by `config.Colorful`, whatever the rest of the configuration,
the writer and the getter. -/
theorem C16_colorful_is_plain_wrapped {W Ctx : Type} (writer : W) (config : logger.Config)
    (getter : Option (ReqIdGetter Ctx)) :
    (templatesOf true).map visible = templatesOf false
    ∧ (templatesOf false).map visible = templatesOf false
    ∧ templates (New writer config getter) = templatesOf config.Colorful
    ∧ templatesOf false
        = ["%s\t[info] req_id:%s ", "%s\t[warn] req_id:%s ", "%s\t[error] req_id:%s ",
            "%s\t[%.3fms] [rows:%v] %s req_id:%s ",
            "%s %s\t[%.3fms] [rows:%v] %s req_id:%s ",
            "%s %s\t[%.3fms] [rows:%v] %s req_id:%s "] := by
  refine ⟨by decide, by decide, templates_New writer config getter, by decide⟩

/-- C17: none of the twelve templates has a newline; in each the first bracket of the
visible text comes right after a `%s` verb and a tab, the only tab of the template; and
each has the placeholder `req_id:%s`. -/
theorem C17_tab_for_newline :
    (templatesOf false ++ templatesOf true).map
        (fun t => (t.data.contains '\n', tabAfterVerb t, t.data.count '\t',
          decide (1 ≤ occurrences "req_id:%s".data t.data)))
      = List.replicate 12 (false, true, 1, true) := by
  decide

/-- C15, the claim as stated fails: the plain trace template has a caller placeholder and a
request-id placeholder but no severity tag, its two bracketed sections being the timing
and the row count; so not every template carries a severity tag. -/
theorem C15_counterexample :
    (templatesOf false)[3]? = some "%s\t[%.3fms] [rows:%v] %s req_id:%s "
    ∧ severityTags "%s\t[%.3fms] [rows:%v] %s req_id:%s " = []
    ∧ ¬ ((templatesOf false ++ templatesOf true).all
          (fun t => !(severityTags t).isEmpty) = true) := by
  decide

/-- C15, amended: in both sets each of the six templates has the caller-location placeholder
`%s` as its first verb and exactly one placeholder `req_id:%s`, which is its last verb; in
info, warn and error it is the second of two verbs, in the three trace templates it
follows the SQL placeholder directly (`%s req_id:%s`). The info, warn and error templates
carry the severity tags `[info]`, `[warn]`, `[error]`; the trace templates carry none. -/
theorem C15_template_structure :
    (templatesOf false ++ templatesOf true).map
        (fun t => ((verbs t).head?, occurrences "req_id:%s".data t.data, lastVerbIsReqId t))
      = List.replicate 12 (some "%s", 1, true)
    ∧ (templatesOf false).map verbs = (templatesOf true).map verbs
    ∧ (templatesOf false).map verbs
      = [["%s", "%s"], ["%s", "%s"], ["%s", "%s"], ["%s", "%.3f", "%v", "%s", "%s"],
          ["%s", "%s", "%.3f", "%v", "%s", "%s"], ["%s", "%s", "%.3f", "%v", "%s", "%s"]]
    ∧ (templatesOf false ++ templatesOf true).map
        (fun t => occurrences "%s req_id:%s".data t.data)
      = [0, 0, 0, 1, 1, 1, 0, 0, 0, 1, 1, 1]
    ∧ (templatesOf false).map severityTags = [["info"], ["warn"], ["error"], [], [], []]
    ∧ (templatesOf true).map severityTags = [["info"], ["warn"], ["error"], [], [], []] := by
  refine ⟨by decide, by decide, by decide, by decide, by decide, by decide⟩

/-! ## Rendering of the lines -/

/-- A format without `%` is copied, and the arguments, which no verb takes, are left over. -/
theorem sprintfAux_lits (u : Unspecified) (lits : List Char) (h : '%' ∉ lits)
    (args : List Arg) :
    sprintfAux u none lits args = lits ++ (extraText u args).data := by
  induction lits with
  | nil => cases args <;> simp [sprintfAux, extraText]
  | cons c cs ih =>
    have hc : c ≠ '%' := fun h1 => h (by simp [h1])
    have hcs : '%' ∉ cs := fun h1 => h (by simp [h1])
    simp [sprintfAux, hc, ih hcs]

/-- A message without verbs is written as it is, followed by the left-over text. -/
theorem sprintf_lits (u : Unspecified) (msg : String) (h : '%' ∉ msg.data) (data : List Arg) :
    sprintf u msg data = msg ++ extraText u data := by
  apply String.ext
  simp [sprintf, sprintfAux_lits u msg.data h]

theorem paint_true (s : String) : paint true s = s := rfl

theorem paint_false (s : String) : paint false s = "" := rfl

theorem empty_data : ("" : String).data = [] := rfl

/-- The characters of the six templates of the plain set. -/
theorem templatesOf_false_data :
    (templatesOf false).map String.data
      = [
          ['%', 's', '\t', '[', 'i', 'n', 'f', 'o', ']', ' ', 'r', 'e', 'q', '_', 'i', 'd',
           ':', '%', 's', ' '],
          ['%', 's', '\t', '[', 'w', 'a', 'r', 'n', ']', ' ', 'r', 'e', 'q', '_', 'i', 'd',
           ':', '%', 's', ' '],
          ['%', 's', '\t', '[', 'e', 'r', 'r', 'o', 'r', ']', ' ', 'r', 'e', 'q', '_', 'i',
           'd', ':', '%', 's', ' '],
          ['%', 's', '\t', '[', '%', '.', '3', 'f', 'm', 's', ']', ' ', '[', 'r', 'o', 'w',
           's', ':', '%', 'v', ']', ' ', '%', 's', ' ', 'r', 'e', 'q', '_', 'i', 'd', ':', '%',
           's', ' '],
          ['%', 's', ' ', '%', 's', '\t', '[', '%', '.', '3', 'f', 'm', 's', ']', ' ', '[',
           'r', 'o', 'w', 's', ':', '%', 'v', ']', ' ', '%', 's', ' ', 'r', 'e', 'q', '_', 'i',
           'd', ':', '%', 's', ' '],
          ['%', 's', ' ', '%', 's', '\t', '[', '%', '.', '3', 'f', 'm', 's', ']', ' ', '[',
           'r', 'o', 'w', 's', ':', '%', 'v', ']', ' ', '%', 's', ' ', 'r', 'e', 'q', '_', 'i',
           'd', ':', '%', 's', ' ']] := by
  decide

/-- The characters of the six templates of the colorful set. -/
theorem templatesOf_true_data :
    (templatesOf true).map String.data
      = [
          ['\x1b', '[', '3', '2', 'm', '%', 's', '\t', '\x1b', '[', '0', 'm', '\x1b', '[', '3',
           '2', 'm', '[', 'i', 'n', 'f', 'o', ']', ' ', 'r', 'e', 'q', '_', 'i', 'd', ':', '%',
           's', ' ', '\x1b', '[', '0', 'm'],
          ['\x1b', '[', '3', '4', ';', '1', 'm', '%', 's', '\t', '\x1b', '[', '0', 'm', '\x1b',
           '[', '3', '5', 'm', '[', 'w', 'a', 'r', 'n', ']', ' ', 'r', 'e', 'q', '_', 'i', 'd',
           ':', '%', 's', ' ', '\x1b', '[', '0', 'm'],
          ['\x1b', '[', '3', '5', 'm', '%', 's', '\t', '\x1b', '[', '0', 'm', '\x1b', '[', '3',
           '1', 'm', '[', 'e', 'r', 'r', 'o', 'r', ']', ' ', 'r', 'e', 'q', '_', 'i', 'd', ':',
           '%', 's', ' ', '\x1b', '[', '0', 'm'],
          ['\x1b', '[', '3', '2', 'm', '%', 's', '\t', '\x1b', '[', '0', 'm', '\x1b', '[', '3',
           '3', 'm', '[', '%', '.', '3', 'f', 'm', 's', ']', ' ', '\x1b', '[', '3', '4', ';',
           '1', 'm', '[', 'r', 'o', 'w', 's', ':', '%', 'v', ']', '\x1b', '[', '0', 'm', ' ',
           '%', 's', ' ', 'r', 'e', 'q', '_', 'i', 'd', ':', '%', 's', ' '],
          ['\x1b', '[', '3', '2', 'm', '%', 's', ' ', '\x1b', '[', '3', '3', 'm', '%', 's',
           '\t', '\x1b', '[', '0', 'm', '\x1b', '[', '3', '1', ';', '1', 'm', '[', '%', '.',
           '3', 'f', 'm', 's', ']', ' ', '\x1b', '[', '3', '3', 'm', '[', 'r', 'o', 'w', 's',
           ':', '%', 'v', ']', '\x1b', '[', '3', '5', 'm', ' ', '%', 's', ' ', 'r', 'e', 'q',
           '_', 'i', 'd', ':', '%', 's', ' ', '\x1b', '[', '0', 'm'],
          ['\x1b', '[', '3', '1', ';', '1', 'm', '%', 's', ' ', '\x1b', '[', '3', '5', ';',
           '1', 'm', '%', 's', '\t', '\x1b', '[', '0', 'm', '\x1b', '[', '3', '3', 'm', '[',
           '%', '.', '3', 'f', 'm', 's', ']', ' ', '\x1b', '[', '3', '4', ';', '1', 'm', '[',
           'r', 'o', 'w', 's', ':', '%', 'v', ']', '\x1b', '[', '0', 'm', ' ', '%', 's', ' ',
           'r', 'e', 'q', '_', 'i', 'd', ':', '%', 's', ' ']] := by
  decide


theorem Reset_data : logger.Reset.data = ['\x1b', '[', '0', 'm'] := by decide

theorem Red_data : logger.Red.data = ['\x1b', '[', '3', '1', 'm'] := by decide

theorem Green_data : logger.Green.data = ['\x1b', '[', '3', '2', 'm'] := by decide

theorem Yellow_data : logger.Yellow.data = ['\x1b', '[', '3', '3', 'm'] := by decide

theorem Magenta_data : logger.Magenta.data = ['\x1b', '[', '3', '5', 'm'] := by decide

theorem BlueBold_data : logger.BlueBold.data = ['\x1b', '[', '3', '4', ';', '1', 'm'] := by decide

theorem MagentaBold_data : logger.MagentaBold.data = ['\x1b', '[', '3', '5', ';', '1', 'm'] := by decide

theorem RedBold_data : logger.RedBold.data = ['\x1b', '[', '3', '1', ';', '1', 'm'] := by decide

theorem sprintf_info {W Ctx : Type} (u : Unspecified) (writer : W)
    (config : logger.Config) (getter : Option (ReqIdGetter Ctx)) (caller rid msg : String) (data : List Arg) :
    sprintf u ((New writer config getter).infoStr ++ msg)
        ([Arg.str caller, Arg.str rid] ++ data)
      = infoText config.Colorful caller rid ++ sprintf u msg data := by
  have hd := congrArg (List.map String.data) (templates_New writer config getter)
  apply String.ext
  cases h : config.Colorful
  · rw [h, templatesOf_false_data] at hd
    simp only [templates, List.map_cons, List.map_nil, List.cons.injEq, and_true] at hd
    obtain ⟨h0, -, -, -, -, -⟩ := hd
    simp only [sprintf, String.data_append, h0, infoText, paint_false, empty_data,
      List.nil_append, List.append_nil]
    simp [sprintfAux, renderArg, isFlagChar]
  · rw [h, templatesOf_true_data] at hd
    simp only [templates, List.map_cons, List.map_nil, List.cons.injEq, and_true] at hd
    obtain ⟨h0, -, -, -, -, -⟩ := hd
    simp only [sprintf, String.data_append, h0, infoText, paint_true, Reset_data, Red_data, Green_data, Yellow_data, Magenta_data, BlueBold_data, MagentaBold_data, RedBold_data]
    simp [sprintfAux, renderArg, isFlagChar]

theorem sprintf_warn {W Ctx : Type} (u : Unspecified) (writer : W)
    (config : logger.Config) (getter : Option (ReqIdGetter Ctx)) (caller rid msg : String) (data : List Arg) :
    sprintf u ((New writer config getter).warnStr ++ msg)
        ([Arg.str caller, Arg.str rid] ++ data)
      = warnText config.Colorful caller rid ++ sprintf u msg data := by
  have hd := congrArg (List.map String.data) (templates_New writer config getter)
  apply String.ext
  cases h : config.Colorful
  · rw [h, templatesOf_false_data] at hd
    simp only [templates, List.map_cons, List.map_nil, List.cons.injEq, and_true] at hd
    obtain ⟨-, h0, -, -, -, -⟩ := hd
    simp only [sprintf, String.data_append, h0, warnText, paint_false, empty_data,
      List.nil_append, List.append_nil]
    simp [sprintfAux, renderArg, isFlagChar]
  · rw [h, templatesOf_true_data] at hd
    simp only [templates, List.map_cons, List.map_nil, List.cons.injEq, and_true] at hd
    obtain ⟨-, h0, -, -, -, -⟩ := hd
    simp only [sprintf, String.data_append, h0, warnText, paint_true, Reset_data, Red_data, Green_data, Yellow_data, Magenta_data, BlueBold_data, MagentaBold_data, RedBold_data]
    simp [sprintfAux, renderArg, isFlagChar]

theorem sprintf_err {W Ctx : Type} (u : Unspecified) (writer : W)
    (config : logger.Config) (getter : Option (ReqIdGetter Ctx)) (caller rid msg : String) (data : List Arg) :
    sprintf u ((New writer config getter).errStr ++ msg)
        ([Arg.str caller, Arg.str rid] ++ data)
      = errText config.Colorful caller rid ++ sprintf u msg data := by
  have hd := congrArg (List.map String.data) (templates_New writer config getter)
  apply String.ext
  cases h : config.Colorful
  · rw [h, templatesOf_false_data] at hd
    simp only [templates, List.map_cons, List.map_nil, List.cons.injEq, and_true] at hd
    obtain ⟨-, -, h0, -, -, -⟩ := hd
    simp only [sprintf, String.data_append, h0, errText, paint_false, empty_data,
      List.nil_append, List.append_nil]
    simp [sprintfAux, renderArg, isFlagChar]
  · rw [h, templatesOf_true_data] at hd
    simp only [templates, List.map_cons, List.map_nil, List.cons.injEq, and_true] at hd
    obtain ⟨-, -, h0, -, -, -⟩ := hd
    simp only [sprintf, String.data_append, h0, errText, paint_true, Reset_data, Red_data, Green_data, Yellow_data, Magenta_data, BlueBold_data, MagentaBold_data, RedBold_data]
    simp [sprintfAux, renderArg, isFlagChar]

theorem sprintf_trace {W Ctx : Type} (u : Unspecified) (writer : W)
    (config : logger.Config) (getter : Option (ReqIdGetter Ctx)) (caller sql rid : String)
    (n : Int) (d : Nat) (rows : Int) :
    sprintf u ((New writer config getter).traceStr)
        [Arg.str caller, Arg.float64Div n d, rowsArg rows, Arg.str sql, Arg.str rid]
      = traceText config.Colorful caller (formatFloat3 n d) (rowsText rows) sql rid := by
  have hd := congrArg (List.map String.data) (templates_New writer config getter)
  apply String.ext
  cases h : config.Colorful
  · rw [h, templatesOf_false_data] at hd
    simp only [templates, List.map_cons, List.map_nil, List.cons.injEq, and_true] at hd
    obtain ⟨-, -, -, h0, -, -⟩ := hd
    simp only [sprintf, String.data_append, h0, traceText, paint_false, empty_data,
      List.nil_append, List.append_nil]
    simp [sprintfAux, renderArg, isFlagChar]
    unfold rowsArg rowsText
    split_ifs <;> rfl
  · rw [h, templatesOf_true_data] at hd
    simp only [templates, List.map_cons, List.map_nil, List.cons.injEq, and_true] at hd
    obtain ⟨-, -, -, h0, -, -⟩ := hd
    simp only [sprintf, String.data_append, h0, traceText, paint_true, Reset_data, Red_data, Green_data, Yellow_data, Magenta_data, BlueBold_data, MagentaBold_data, RedBold_data]
    simp [sprintfAux, renderArg, isFlagChar]
    unfold rowsArg rowsText
    split_ifs <;> rfl

theorem sprintf_traceWarn {W Ctx : Type} (u : Unspecified) (writer : W)
    (config : logger.Config) (getter : Option (ReqIdGetter Ctx)) (caller slow sql rid : String)
    (n : Int) (d : Nat) (rows : Int) :
    sprintf u ((New writer config getter).traceWarnStr)
        [Arg.str caller, Arg.str slow, Arg.float64Div n d, rowsArg rows, Arg.str sql,
          Arg.str rid]
      = traceWarnText config.Colorful caller slow (formatFloat3 n d) (rowsText rows) sql
          rid := by
  have hd := congrArg (List.map String.data) (templates_New writer config getter)
  apply String.ext
  cases h : config.Colorful
  · rw [h, templatesOf_false_data] at hd
    simp only [templates, List.map_cons, List.map_nil, List.cons.injEq, and_true] at hd
    obtain ⟨-, -, -, -, h0, -⟩ := hd
    simp only [sprintf, String.data_append, h0, traceWarnText, paint_false, empty_data,
      List.nil_append, List.append_nil]
    simp [sprintfAux, renderArg, isFlagChar]
    unfold rowsArg rowsText
    split_ifs <;> rfl
  · rw [h, templatesOf_true_data] at hd
    simp only [templates, List.map_cons, List.map_nil, List.cons.injEq, and_true] at hd
    obtain ⟨-, -, -, -, h0, -⟩ := hd
    simp only [sprintf, String.data_append, h0, traceWarnText, paint_true, Reset_data, Red_data, Green_data, Yellow_data, Magenta_data, BlueBold_data, MagentaBold_data, RedBold_data]
    simp [sprintfAux, renderArg, isFlagChar]
    unfold rowsArg rowsText
    split_ifs <;> rfl

theorem sprintf_traceErr {W Ctx : Type} (u : Unspecified) (writer : W)
    (config : logger.Config) (getter : Option (ReqIdGetter Ctx)) (caller sql rid : String)
    (e : GoError) (n : Int) (d : Nat) (rows : Int) :
    sprintf u ((New writer config getter).traceErrStr)
        [Arg.str caller, Arg.error e, Arg.float64Div n d, rowsArg rows, Arg.str sql,
          Arg.str rid]
      = traceErrText config.Colorful caller e.text (formatFloat3 n d) (rowsText rows) sql
          rid := by
  have hd := congrArg (List.map String.data) (templates_New writer config getter)
  apply String.ext
  cases h : config.Colorful
  · rw [h, templatesOf_false_data] at hd
    simp only [templates, List.map_cons, List.map_nil, List.cons.injEq, and_true] at hd
    obtain ⟨-, -, -, -, -, h0⟩ := hd
    simp only [sprintf, String.data_append, h0, traceErrText, paint_false, empty_data,
      List.nil_append, List.append_nil]
    simp [sprintfAux, renderArg, isFlagChar]
    unfold rowsArg rowsText
    split_ifs <;> rfl
  · rw [h, templatesOf_true_data] at hd
    simp only [templates, List.map_cons, List.map_nil, List.cons.injEq, and_true] at hd
    obtain ⟨-, -, -, -, -, h0⟩ := hd
    simp only [sprintf, String.data_append, h0, traceErrText, paint_true, Reset_data, Red_data, Green_data, Yellow_data, Magenta_data, BlueBold_data, MagentaBold_data, RedBold_data]
    simp [sprintfAux, renderArg, isFlagChar]
    unfold rowsArg rowsText
    split_ifs <;> rfl

/-! ## Counting the places of a text in a line -/

theorem isPrefixOf_append_sep (n : List Char) (c : Char) (hc : c ∉ n) :
    ∀ (x b : List Char), n.isPrefixOf (x ++ c :: b) = n.isPrefixOf x := by
  induction n with
  | nil => intro x b; simp
  | cons a n ih =>
    intro x b
    have hac : a ≠ c := fun h => hc (by simp [h])
    have hn : c ∉ n := fun h => hc (by simp [h])
    cases x with
    | nil => simp [List.isPrefixOf, hac]
    | cons y x => simp [List.isPrefixOf, ih hn]

/-- A character foreign to the text cuts the line in two for the count. -/
theorem occurrences_append_sep (n : List Char) (c : Char) (hc : c ∉ n) (a b : List Char) :
    occurrences n (a ++ c :: b) = occurrences n a + occurrences n (c :: b) := by
  induction a with
  | nil => simp [occurrences]
  | cons x a ih =>
    have h := isPrefixOf_append_sep n c hc (x :: a) b
    simp only [List.cons_append] at h ⊢
    simp only [occurrences, h, ih]
    omega

/-- A line that lacks one character of the text has no place for it. -/
theorem occurrences_eq_zero_of_not_mem (n hay : List Char) (c : Char) (hc : c ∈ n)
    (hh : c ∉ hay) : occurrences n hay = 0 := by
  induction hay with
  | nil => rfl
  | cons x xs ih =>
    have hxs : c ∉ xs := fun h => hh (by simp [h])
    have hp : n.isPrefixOf (x :: xs) = false := by
      by_contra hn
      have h1 : n.isPrefixOf (x :: xs) = true := by simpa using hn
      have h2 : n <+: x :: xs := List.isPrefixOf_iff_prefix.mp h1
      exact hh (h2.subset hc)
    simp [occurrences, hp, ih hxs]

theorem occ_skip (c : Char) (l : List Char) (hc : c ≠ 'a') :
    occurrences needle (c :: l) = occurrences needle l := by
  have h : ('a' == c) = false := by simpa using fun h => hc h.symm
  simp [occurrences, needle, List.isPrefixOf, h]

theorem occ_sep (c : Char) (hc : c ∉ needle) (a b : List Char) :
    occurrences needle (a ++ c :: b) = occurrences needle a + occurrences needle b := by
  rw [occurrences_append_sep needle c hc, occ_skip c b (fun h => hc (by simp [h, needle]))]

theorem occ_skip_a (c : Char) (l : List Char) (hc : c ≠ 'b') :
    occurrences needle ('a' :: c :: l) = occurrences needle (c :: l) := by
  have h : ('b' == c) = false := by simpa using fun h => hc h.symm
  simp [occurrences, needle, List.isPrefixOf, h]

theorem occ_nil : occurrences needle [] = 0 := rfl

theorem digitChar_isDigit (m : Nat) (h : m < 10) : (Nat.digitChar m).isDigit = true := by
  interval_cases m <;> decide

theorem toDigitsCore_isDigit (fuel : Nat) : ∀ (n : Nat) (acc : List Char),
    (∀ c ∈ acc, c.isDigit = true) →
      ∀ c ∈ Nat.toDigitsCore 10 fuel n acc, c.isDigit = true := by
  induction fuel with
  | zero => intro n acc hacc; simpa [Nat.toDigitsCore] using hacc
  | succ f ih =>
    intro n acc hacc
    have hd : (Nat.digitChar (n % 10)).isDigit = true :=
      digitChar_isDigit _ (Nat.mod_lt _ (by decide))
    have hacc2 : ∀ c ∈ Nat.digitChar (n % 10) :: acc, c.isDigit = true := by
      intro c hc
      rcases List.mem_cons.mp hc with h | h
      · rw [h]; exact hd
      · exact hacc c h
    simp only [Nat.toDigitsCore]
    split_ifs
    · exact hacc2
    · exact ih _ _ hacc2

/-- The decimal text of a natural number is made of digits. -/
theorem natText_isDigit (n : Nat) : ∀ c ∈ (toString n).data, c.isDigit = true := by
  show ∀ c ∈ (Nat.repr n).data, c.isDigit = true
  exact toDigitsCore_isDigit _ _ _ (by simp)

/-- The decimal text of an integer is made of digits and a sign. -/
theorem intText_chars (n : Int) : ∀ c ∈ (toString n).data, c.isDigit = true ∨ c = '-' := by
  cases n with
  | ofNat m =>
    intro c hc
    exact Or.inl (natText_isDigit m c hc)
  | negSucc m =>
    intro c hc
    have : (toString (Int.negSucc m)).data = '-' :: (toString (m + 1)).data := rfl
    rw [this] at hc
    rcases List.mem_cons.mp hc with h | h
    · exact Or.inr h
    · exact Or.inl (natText_isDigit _ c h)

/-- The text of three decimals is made of digits and a point. -/
theorem fixed3_chars (r : Nat) : ∀ c ∈ (fixed3 r).data, c.isDigit = true ∨ c = '.' := by
  intro c hc
  simp only [fixed3, String.data_append, List.mem_append, List.mem_cons] at hc
  rcases hc with (hc | hc) | hc
  · exact Or.inl (natText_isDigit _ c hc)
  · rcases hc with hc | hc
    · exact Or.inr hc
    · simp at hc
  · rcases hc with hc | hc | hc | hc
    · rw [hc]; exact Or.inl (digitChar_isDigit _ (Nat.mod_lt _ (by decide)))
    · rw [hc]; exact Or.inl (digitChar_isDigit _ (Nat.mod_lt _ (by decide)))
    · rw [hc]; exact Or.inl (digitChar_isDigit _ (Nat.mod_lt _ (by decide)))
    · simp at hc

/-- The text of a float under `%.3f` is made of digits, a point and a sign. -/
theorem formatFloat3_chars (n : Int) (d : Nat) :
    ∀ c ∈ (formatFloat3 n d).data, c.isDigit = true ∨ c = '.' ∨ c = '-' := by
  intro c hc
  simp only [formatFloat3, String.data_append, List.mem_append] at hc
  rcases hc with hc | hc
  · split_ifs at hc
    · simp at hc
      exact Or.inr (Or.inr hc)
    · simp at hc
  · rcases fixed3_chars _ c hc with h | h
    · exact Or.inl h
    · exact Or.inr (Or.inl h)

theorem occ_formatFloat3 (n : Int) (d : Nat) :
    occurrences needle (formatFloat3 n d).data = 0 := by
  apply occurrences_eq_zero_of_not_mem needle _ 'a' (by decide)
  intro h
  rcases formatFloat3_chars n d 'a' h with h | h | h
  · exact absurd h (by decide)
  · exact absurd h (by decide)
  · exact absurd h (by decide)

theorem occ_rowsText (rows : Int) : occurrences needle (rowsText rows).data = 0 := by
  apply occurrences_eq_zero_of_not_mem needle _ 'a' (by decide)
  intro h
  unfold rowsText at h
  split_ifs at h
  · simp at h
  · rcases intText_chars rows 'a' h with h | h
    · exact absurd h (by decide)
    · exact absurd h (by decide)

theorem occ_infoText (c : Bool) (caller rid body : String) :
    occurrences needle (infoText c caller rid ++ body).data
      = occurrences needle caller.data + occurrences needle rid.data
        + occurrences needle body.data := by
  cases c <;>
    simp [infoText, paint, logger.Green, logger.Reset] <;>
    simp (disch := decide) only [occ_sep, occ_skip, occ_nil] <;> omega

theorem occ_warnText (c : Bool) (caller rid body : String) :
    occurrences needle (warnText c caller rid ++ body).data
      = occurrences needle caller.data + occurrences needle rid.data
        + occurrences needle body.data := by
  cases c <;>
    simp [warnText, paint, logger.BlueBold, logger.Magenta, logger.Reset] <;>
    simp (disch := decide) only [occ_sep, occ_skip, occ_skip_a, occ_nil] <;> omega

theorem occ_errText (c : Bool) (caller rid body : String) :
    occurrences needle (errText c caller rid ++ body).data
      = occurrences needle caller.data + occurrences needle rid.data
        + occurrences needle body.data := by
  cases c <;>
    simp [errText, paint, logger.Magenta, logger.Red, logger.Reset] <;>
    simp (disch := decide) only [occ_sep, occ_skip, occ_nil] <;> omega

theorem occ_free (l b : List Char) (h : 'a' ∉ l) :
    occurrences needle (l ++ b) = occurrences needle b := by
  induction l with
  | nil => rfl
  | cons x xs ih =>
    have hx : x ≠ 'a' := fun hx => h (by simp [hx])
    have hxs : 'a' ∉ xs := fun hxs => h (List.mem_cons_of_mem _ hxs)
    rw [List.cons_append, occ_skip x _ hx, ih hxs]

theorem occ_block (a l b : List Char) (h : sepBlock l = true) :
    occurrences needle (a ++ (l ++ b)) = occurrences needle a + occurrences needle b := by
  cases l with
  | nil => simp [sepBlock] at h
  | cons c cs =>
    simp only [sepBlock, Bool.and_eq_true, decide_eq_true_eq] at h
    have hcs : 'a' ∉ cs := fun hcs => h.2 (List.mem_cons_of_mem _ hcs)
    rw [List.cons_append, occ_sep c h.1, occ_free cs b hcs]

theorem occ_block_end (a l : List Char) (h : sepBlock l = true) :
    occurrences needle (a ++ l) = occurrences needle a := by
  have := occ_block a l [] h
  simpa [occ_nil] using this

theorem occ_free_end (l : List Char) (h : 'a' ∉ l) :
    occurrences needle l = 0 := by
  have := occ_free l [] h
  simpa [occ_nil] using this

theorem occ_traceText (c : Bool) (caller ms rows sql rid : String) :
    occurrences needle (traceText c caller ms rows sql rid).data
      = occurrences needle caller.data + occurrences needle ms.data
        + occurrences needle rows.data + occurrences needle sql.data
        + occurrences needle rid.data := by
  cases c <;>
    simp only [traceText, paint_true, paint_false, String.data_append, List.append_assoc,
      empty_data, List.nil_append] <;>
    simp (disch := decide) only [occ_free, occ_block, occ_block_end, occ_free_end] <;> omega

theorem occ_traceWarnText (c : Bool) (caller slow ms rows sql rid : String) :
    occurrences needle (traceWarnText c caller slow ms rows sql rid).data
      = occurrences needle caller.data + occurrences needle slow.data
        + occurrences needle ms.data + occurrences needle rows.data
        + occurrences needle sql.data + occurrences needle rid.data := by
  cases c <;>
    simp only [traceWarnText, paint_true, paint_false, String.data_append,
      List.append_assoc, empty_data, List.nil_append] <;>
    simp (disch := decide) only [occ_free, occ_block, occ_block_end, occ_free_end] <;> omega

theorem occ_traceErrText (c : Bool) (caller err ms rows sql rid : String) :
    occurrences needle (traceErrText c caller err ms rows sql rid).data
      = occurrences needle caller.data + occurrences needle err.data
        + occurrences needle ms.data + occurrences needle rows.data
        + occurrences needle sql.data + occurrences needle rid.data := by
  cases c <;>
    simp only [traceErrText, paint_true, paint_false, String.data_append,
      List.append_assoc, empty_data, List.nil_append] <;>
    simp (disch := decide) only [occ_free, occ_block, occ_block_end, occ_free_end] <;> omega

theorem occ_slowLog (t : String) :
    occurrences needle ("SLOW SQL >= " ++ t).data = occurrences needle t.data := by
  simp
  simp (disch := decide) only [occ_skip]

theorem occ_needle : occurrences needle "abc-123".data = 1 := by decide

/-! ## What `Info`, `Warn` and `Error` can write -/

theorem mem_Info {W Ctx : Type} (l : withReqIdLogger W Ctx) (env : Env) (ctx : Ctx)
    (msg : String) (data : List Arg) (w : W) (fmt : String) (args : List Arg)
    (h : Event.printf w fmt args ∈ l.Info env ctx msg data []) :
    fmt = l.infoStr ++ msg
      ∧ args = [Arg.str env.FileWithLineNum, Arg.str (l.reqIdGetter ctx)] ++ data := by
  unfold Info Printf at h
  split_ifs at h
  · simp at h
    exact ⟨h.2.1, h.2.2⟩
  · simp at h

theorem mem_Warn {W Ctx : Type} (l : withReqIdLogger W Ctx) (env : Env) (ctx : Ctx)
    (msg : String) (data : List Arg) (w : W) (fmt : String) (args : List Arg)
    (h : Event.printf w fmt args ∈ l.Warn env ctx msg data []) :
    fmt = l.warnStr ++ msg
      ∧ args = [Arg.str env.FileWithLineNum, Arg.str (l.reqIdGetter ctx)] ++ data := by
  unfold Warn Printf at h
  split_ifs at h
  · simp at h
    exact ⟨h.2.1, h.2.2⟩
  · simp at h

theorem mem_Error {W Ctx : Type} (l : withReqIdLogger W Ctx) (env : Env) (ctx : Ctx)
    (msg : String) (data : List Arg) (w : W) (fmt : String) (args : List Arg)
    (h : Event.printf w fmt args ∈ l.Error env ctx msg data []) :
    fmt = l.errStr ++ msg
      ∧ args = [Arg.str env.FileWithLineNum, Arg.str (l.reqIdGetter ctx)] ++ data := by
  unfold Error Printf at h
  split_ifs at h
  · simp at h
    exact ⟨h.2.1, h.2.2⟩
  · simp at h

/-- The lines `Trace` writes on a logger built by `New`, as rendered by the writer. -/
theorem sprintf_mem_Trace {W Ctx : Type} (u : Unspecified) (writer : W)
    (config : logger.Config) (getter : Option (ReqIdGetter Ctx)) (v : Int) (env : Env)
    (ctx : Ctx) (begin : Int) (fc : Unit → String × Int) (err : Option GoError) (w : W)
    (fmt : String) (args : List Arg)
    (h : Event.printf w fmt args
      ∈ ((New writer config getter).LogMode v).Trace env ctx begin fc err []) :
    (∃ e, err = some e
        ∧ args = [Arg.str env.FileWithLineNum, Arg.error e,
            Arg.float64Div (env.Since begin) 1000000, rowsArg (fc ()).2, Arg.str (fc ()).1,
            Arg.str ((New writer config getter).reqIdGetter ctx)]
        ∧ fmt = (New writer config getter).traceErrStr
        ∧ sprintf u fmt args = traceErrText config.Colorful env.FileWithLineNum e.text
            (formatFloat3 (env.Since begin) 1000000) (rowsText (fc ()).2) (fc ()).1
            ((New writer config getter).reqIdGetter ctx))
    ∨ (args = [Arg.str env.FileWithLineNum,
            Arg.str ("SLOW SQL >= " ++ env.durationString config.SlowThreshold),
            Arg.float64Div (env.Since begin) 1000000, rowsArg (fc ()).2, Arg.str (fc ()).1,
            Arg.str ((New writer config getter).reqIdGetter ctx)]
        ∧ fmt = (New writer config getter).traceWarnStr
        ∧ sprintf u fmt args = traceWarnText config.Colorful env.FileWithLineNum
            ("SLOW SQL >= " ++ env.durationString config.SlowThreshold)
            (formatFloat3 (env.Since begin) 1000000) (rowsText (fc ()).2) (fc ()).1
            ((New writer config getter).reqIdGetter ctx))
    ∨ (args = [Arg.str env.FileWithLineNum,
            Arg.float64Div (env.Since begin) 1000000, rowsArg (fc ()).2, Arg.str (fc ()).1,
            Arg.str ((New writer config getter).reqIdGetter ctx)]
        ∧ fmt = (New writer config getter).traceStr
        ∧ sprintf u fmt args = traceText config.Colorful env.FileWithLineNum
            (formatFloat3 (env.Since begin) 1000000) (rowsText (fc ()).2) (fc ()).1
            ((New writer config getter).reqIdGetter ctx)) := by
  rcases mem_Trace _ env ctx begin fc err _ h with h1 | ⟨e, he, h1⟩ | h1 | h1
  · exact absurd h1 (by simp)
  · left
    simp only [traceErrLine, Event.printf.injEq] at h1
    obtain ⟨-, hf, ha⟩ := h1
    refine ⟨e, he, ha, hf, ?_⟩
    rw [hf, ha]
    exact sprintf_traceErr u writer config getter _ _ _ e _ _ _
  · right; left
    simp only [traceSlowLine, Event.printf.injEq] at h1
    obtain ⟨-, hf, ha⟩ := h1
    refine ⟨ha, hf, ?_⟩
    rw [hf, ha]
    exact sprintf_traceWarn u writer config getter _ _ _ _ _ _ _
  · right; right
    simp only [traceLine, Event.printf.injEq] at h1
    obtain ⟨-, hf, ha⟩ := h1
    refine ⟨ha, hf, ?_⟩
    rw [hf, ha]
    exact sprintf_trace u writer config getter _ _ _ _ _ _

/-! ## Request-id propagation -/

/-- C11: with a getter that returns `abc-123` for every context, in the plain and in the
colorful set, every line written by `Info`, `Warn`, `Error` and by the three branches of
`Trace`, rendered printf-style, holds `abc-123` at exactly one place, right after
`req_id:`: in info, warn and error lines after the caller location and ahead of the
message body, in trace lines after the SQL text. The caller location, the message body
(with what the writer appends for left-over data), the error text, the SQL and the rendered
threshold are taken not to hold `abc-123`, and the message to have no verb. -/
theorem C11_request_id_propagation {W Ctx : Type} (u : Unspecified) (writer : W)
    (config : logger.Config) (v : Int) (env : Env) (ctx : Ctx) (msg : String)
    (data : List Arg) (begin : Int) (fc : Unit → String × Int) (err : Option GoError)
    (hcaller : occurrences needle env.FileWithLineNum.data = 0)
    (hmsg : '%' ∉ msg.data)
    (hbody : occurrences needle (msg ++ extraText u data).data = 0)
    (hsql : occurrences needle (fc ()).1.data = 0)
    (herr : ∀ e, err = some e → occurrences needle e.text.data = 0)
    (hthr : occurrences needle (env.durationString config.SlowThreshold).data = 0) :
    (∀ fmt args, Event.printf writer fmt args
        ∈ ((New writer config (some (fun _ => "abc-123"))).LogMode v).Info env ctx msg data [] →
      sprintf u fmt args
          = infoText config.Colorful env.FileWithLineNum "abc-123"
            ++ (msg ++ extraText u data)
        ∧ occurrences needle (sprintf u fmt args).data = 1)
    ∧ (∀ fmt args, Event.printf writer fmt args
        ∈ ((New writer config (some (fun _ => "abc-123"))).LogMode v).Warn env ctx msg data [] →
      sprintf u fmt args
          = warnText config.Colorful env.FileWithLineNum "abc-123"
            ++ (msg ++ extraText u data)
        ∧ occurrences needle (sprintf u fmt args).data = 1)
    ∧ (∀ fmt args, Event.printf writer fmt args
        ∈ ((New writer config (some (fun _ => "abc-123"))).LogMode v).Error env ctx msg data [] →
      sprintf u fmt args
          = errText config.Colorful env.FileWithLineNum "abc-123"
            ++ (msg ++ extraText u data)
        ∧ occurrences needle (sprintf u fmt args).data = 1)
    ∧ (∀ fmt args, Event.printf writer fmt args
        ∈ ((New writer config (some (fun _ => "abc-123"))).LogMode v).Trace env ctx begin fc
            err [] →
      occurrences needle (sprintf u fmt args).data = 1
        ∧ ((∃ e, err = some e ∧ sprintf u fmt args
              = traceErrText config.Colorful env.FileWithLineNum e.text
                (formatFloat3 (env.Since begin) 1000000) (rowsText (fc ()).2) (fc ()).1
                "abc-123")
          ∨ sprintf u fmt args
              = traceWarnText config.Colorful env.FileWithLineNum
                ("SLOW SQL >= " ++ env.durationString config.SlowThreshold)
                (formatFloat3 (env.Since begin) 1000000) (rowsText (fc ()).2) (fc ()).1
                "abc-123"
          ∨ sprintf u fmt args
              = traceText config.Colorful env.FileWithLineNum
                (formatFloat3 (env.Since begin) 1000000) (rowsText (fc ()).2) (fc ()).1
                "abc-123")) := by
  refine ⟨?_, ?_, ?_, ?_⟩
  · intro fmt args h
    obtain ⟨hf, ha⟩ := mem_Info _ env ctx msg data writer fmt args h
    have hs : sprintf u fmt args = infoText config.Colorful env.FileWithLineNum "abc-123"
        ++ (msg ++ extraText u data) := by
      rw [hf, ha, ← sprintf_lits u msg hmsg data]
      exact sprintf_info u writer config (some (fun _ : Ctx => "abc-123")) _ _ msg data
    refine ⟨hs, ?_⟩
    rw [hs, occ_infoText, hcaller, hbody, occ_needle]
  · intro fmt args h
    obtain ⟨hf, ha⟩ := mem_Warn _ env ctx msg data writer fmt args h
    have hs : sprintf u fmt args = warnText config.Colorful env.FileWithLineNum "abc-123"
        ++ (msg ++ extraText u data) := by
      rw [hf, ha, ← sprintf_lits u msg hmsg data]
      exact sprintf_warn u writer config (some (fun _ : Ctx => "abc-123")) _ _ msg data
    refine ⟨hs, ?_⟩
    rw [hs, occ_warnText, hcaller, hbody, occ_needle]
  · intro fmt args h
    obtain ⟨hf, ha⟩ := mem_Error _ env ctx msg data writer fmt args h
    have hs : sprintf u fmt args = errText config.Colorful env.FileWithLineNum "abc-123"
        ++ (msg ++ extraText u data) := by
      rw [hf, ha, ← sprintf_lits u msg hmsg data]
      exact sprintf_err u writer config (some (fun _ : Ctx => "abc-123")) _ _ msg data
    refine ⟨hs, ?_⟩
    rw [hs, occ_errText, hcaller, hbody, occ_needle]
  · intro fmt args h
    rcases sprintf_mem_Trace u writer config _ v env ctx begin fc err writer fmt args h with
      ⟨e, he, -, -, hs⟩ | ⟨-, -, hs⟩ | ⟨-, -, hs⟩
    · have hs2 : sprintf u fmt args = traceErrText config.Colorful env.FileWithLineNum e.text
          (formatFloat3 (env.Since begin) 1000000) (rowsText (fc ()).2) (fc ()).1
          "abc-123" := hs
      refine ⟨?_, Or.inl ⟨e, he, hs2⟩⟩
      rw [hs2, occ_traceErrText, hcaller, herr e he, occ_formatFloat3, occ_rowsText, hsql,
        occ_needle]
    · have hs2 : sprintf u fmt args = traceWarnText config.Colorful env.FileWithLineNum
          ("SLOW SQL >= " ++ env.durationString config.SlowThreshold)
          (formatFloat3 (env.Since begin) 1000000) (rowsText (fc ()).2) (fc ()).1
          "abc-123" := hs
      refine ⟨?_, Or.inr (Or.inl hs2)⟩
      rw [hs2, occ_traceWarnText, hcaller, occ_slowLog, hthr, occ_formatFloat3, occ_rowsText,
        hsql, occ_needle]
    · have hs2 : sprintf u fmt args = traceText config.Colorful env.FileWithLineNum
          (formatFloat3 (env.Since begin) 1000000) (rowsText (fc ()).2) (fc ()).1
          "abc-123" := hs
      refine ⟨?_, Or.inr (Or.inr hs2)⟩
      rw [hs2, occ_traceText, hcaller, occ_formatFloat3, occ_rowsText, hsql, occ_needle]

/-- Witness of C11: the error line of a failing 5 ms query on a plain logger whose getter
returns `abc-123`. -/
theorem C11_request_id_propagation_witness :
    occurrences needle
      (sprintf sampleUnspecified "%s %s\t[%.3fms] [rows:%v] %s req_id:%s "
        [Arg.str "main.go:10", Arg.error sampleFailure, Arg.float64Div 5000000 1000000,
          Arg.int64 3, Arg.str "SELECT 1", Arg.str "abc-123"]).data = 1
    ∧ sprintf sampleUnspecified "%s %s\t[%.3fms] [rows:%v] %s req_id:%s "
        [Arg.str "main.go:10", Arg.error sampleFailure, Arg.float64Div 5000000 1000000,
          Arg.int64 3, Arg.str "SELECT 1", Arg.str "abc-123"]
      = "main.go:10 connection refused\t[5.000ms] [rows:3] SELECT 1 req_id:abc-123 " :=
  ⟨((C11_request_id_propagation sampleUnspecified () (sampleConfig 4 false) 4 sampleEnv ""
      "slow 100" [] 0 sampleFc (some sampleFailure) (by decide) (by decide) (by decide)
      (by decide) (by decide) (by decide)).2.2.2
      "%s %s\t[%.3fms] [rows:%v] %s req_id:%s "
      [Arg.str "main.go:10", Arg.error sampleFailure, Arg.float64Div 5000000 1000000,
        Arg.int64 3, Arg.str "SELECT 1", Arg.str "abc-123"] (by decide)).1,
    by decide⟩

/-! ## The default getter -/

/-- C12: `New` with a nil getter stores `AlwaysEmptyReqId`, which returns the empty string
for every context, and with a getter `g` it stores `g`. So on a logger built with a nil
getter the request-id argument of every line of `Info`, `Warn`, `Error` and of the three
branches of `Trace` is the empty string, and the line shows `req_id:` followed directly by
a space; with a getter `g` the argument is `g` applied to the context of the call. -/
theorem C12_default_getter {W Ctx : Type} (u : Unspecified) (writer : W)
    (config : logger.Config) (g : ReqIdGetter Ctx) (v : Int) (env : Env) (ctx : Ctx)
    (msg : String) (data : List Arg) (begin : Int) (fc : Unit → String × Int)
    (err : Option GoError) :
    (New writer config (none : Option (ReqIdGetter Ctx))).reqIdGetter = AlwaysEmptyReqId
    ∧ AlwaysEmptyReqId ctx = ""
    ∧ (New writer config (some g)).reqIdGetter = g
    ∧ (∀ (getter : Option (ReqIdGetter Ctx)) fmt args, Event.printf writer fmt args
          ∈ ((New writer config getter).LogMode v).Info env ctx msg data []
            ++ ((New writer config getter).LogMode v).Warn env ctx msg data []
            ++ ((New writer config getter).LogMode v).Error env ctx msg data [] →
        args = [Arg.str env.FileWithLineNum, Arg.str (getter.getD AlwaysEmptyReqId ctx)]
            ++ data
          ∧ (sprintf u fmt args = infoText config.Colorful env.FileWithLineNum
                (getter.getD AlwaysEmptyReqId ctx) ++ sprintf u msg data
            ∨ sprintf u fmt args = warnText config.Colorful env.FileWithLineNum
                (getter.getD AlwaysEmptyReqId ctx) ++ sprintf u msg data
            ∨ sprintf u fmt args = errText config.Colorful env.FileWithLineNum
                (getter.getD AlwaysEmptyReqId ctx) ++ sprintf u msg data))
    ∧ (∀ (getter : Option (ReqIdGetter Ctx)) fmt args, Event.printf writer fmt args
          ∈ ((New writer config getter).LogMode v).Trace env ctx begin fc err [] →
        args.getLast? = some (Arg.str (getter.getD AlwaysEmptyReqId ctx))
          ∧ ((∃ e, err = some e ∧ sprintf u fmt args
                = traceErrText config.Colorful env.FileWithLineNum e.text
                  (formatFloat3 (env.Since begin) 1000000) (rowsText (fc ()).2) (fc ()).1
                  (getter.getD AlwaysEmptyReqId ctx))
            ∨ sprintf u fmt args
                = traceWarnText config.Colorful env.FileWithLineNum
                  ("SLOW SQL >= " ++ env.durationString config.SlowThreshold)
                  (formatFloat3 (env.Since begin) 1000000) (rowsText (fc ()).2) (fc ()).1
                  (getter.getD AlwaysEmptyReqId ctx)
            ∨ sprintf u fmt args
                = traceText config.Colorful env.FileWithLineNum
                  (formatFloat3 (env.Since begin) 1000000) (rowsText (fc ()).2) (fc ()).1
                  (getter.getD AlwaysEmptyReqId ctx)))
    ∧ (∀ (c : Bool) (caller s1 s2 s3 s4 : String),
        infoText c caller "" = paint c logger.Green ++ caller ++ "\t" ++ paint c logger.Reset
            ++ paint c logger.Green ++ "[info] req_id: " ++ paint c logger.Reset
          ∧ warnText c caller "" = paint c logger.BlueBold ++ caller ++ "\t"
            ++ paint c logger.Reset ++ paint c logger.Magenta ++ "[warn] req_id: "
            ++ paint c logger.Reset
          ∧ errText c caller "" = paint c logger.Magenta ++ caller ++ "\t"
            ++ paint c logger.Reset ++ paint c logger.Red ++ "[error] req_id: "
            ++ paint c logger.Reset
          ∧ traceText c caller s1 s2 s3 "" = paint c logger.Green ++ caller ++ "\t"
            ++ paint c logger.Reset ++ paint c logger.Yellow ++ "[" ++ s1 ++ "ms] "
            ++ paint c logger.BlueBold ++ "[rows:" ++ s2 ++ "]" ++ paint c logger.Reset
            ++ " " ++ s3 ++ " req_id: "
          ∧ traceWarnText c caller s4 s1 s2 s3 "" = paint c logger.Green ++ caller ++ " "
            ++ paint c logger.Yellow ++ s4 ++ "\t" ++ paint c logger.Reset
            ++ paint c logger.RedBold ++ "[" ++ s1 ++ "ms] " ++ paint c logger.Yellow
            ++ "[rows:" ++ s2 ++ "]" ++ paint c logger.Magenta ++ " " ++ s3 ++ " req_id: "
            ++ paint c logger.Reset
          ∧ traceErrText c caller s4 s1 s2 s3 "" = paint c logger.RedBold ++ caller ++ " "
            ++ paint c logger.MagentaBold ++ s4 ++ "\t" ++ paint c logger.Reset
            ++ paint c logger.Yellow ++ "[" ++ s1 ++ "ms] " ++ paint c logger.BlueBold
            ++ "[rows:" ++ s2 ++ "]" ++ paint c logger.Reset ++ " " ++ s3
            ++ " req_id: ") := by
  have hg : ∀ getter : Option (ReqIdGetter Ctx),
      (New writer config getter).reqIdGetter = getter.getD AlwaysEmptyReqId := by
    intro getter
    cases getter <;> rfl
  refine ⟨rfl, rfl, rfl, ?_, ?_, ?_⟩
  · intro getter fmt args h
    rcases List.mem_append.mp h with h | h
    · rcases List.mem_append.mp h with h | h
      · obtain ⟨hf, ha⟩ := mem_Info _ env ctx msg data writer fmt args h
        have ha2 : args = [Arg.str env.FileWithLineNum,
            Arg.str (getter.getD AlwaysEmptyReqId ctx)] ++ data := by
          rw [ha, ← hg getter]; rfl
        refine ⟨ha2, Or.inl ?_⟩
        rw [hf, ha2]
        exact sprintf_info u writer config getter _ _ msg data
      · obtain ⟨hf, ha⟩ := mem_Warn _ env ctx msg data writer fmt args h
        have ha2 : args = [Arg.str env.FileWithLineNum,
            Arg.str (getter.getD AlwaysEmptyReqId ctx)] ++ data := by
          rw [ha, ← hg getter]; rfl
        refine ⟨ha2, Or.inr (Or.inl ?_)⟩
        rw [hf, ha2]
        exact sprintf_warn u writer config getter _ _ msg data
    · obtain ⟨hf, ha⟩ := mem_Error _ env ctx msg data writer fmt args h
      have ha2 : args = [Arg.str env.FileWithLineNum,
          Arg.str (getter.getD AlwaysEmptyReqId ctx)] ++ data := by
        rw [ha, ← hg getter]; rfl
      refine ⟨ha2, Or.inr (Or.inr ?_)⟩
      rw [hf, ha2]
      exact sprintf_err u writer config getter _ _ msg data
  · intro getter fmt args h
    rcases sprintf_mem_Trace u writer config getter v env ctx begin fc err writer fmt args h
      with ⟨e, he, ha, -, hs⟩ | ⟨ha, -, hs⟩ | ⟨ha, -, hs⟩
    · rw [hg getter] at ha hs
      exact ⟨by rw [ha]; rfl, Or.inl ⟨e, he, hs⟩⟩
    · rw [hg getter] at ha hs
      exact ⟨by rw [ha]; rfl, Or.inr (Or.inl hs)⟩
    · rw [hg getter] at ha hs
      exact ⟨by rw [ha]; rfl, Or.inr (Or.inr hs)⟩
  · intro c caller s1 s2 s3 s4
    refine ⟨?_, ?_, ?_, ?_, ?_, ?_⟩
    · apply String.ext
      simp [infoText]
    · apply String.ext
      simp [warnText]
    · apply String.ext
      simp [errText]
    · apply String.ext
      simp [traceText]
    · apply String.ext
      simp [traceWarnText]
    · apply String.ext
      simp [traceErrText]

/-! ## The rows-affected sentinel -/

/-- C13: in each of the three branches of `Trace` the rows argument handed to the writer
(the third from the end) is the string `-` when the producer returns `-1` and the integer
itself for every other value, `-2` included; the line then shows `[rows:-]`, or the number
between `[rows:` and `]`. -/
theorem C13_rows_sentinel {W Ctx : Type} (u : Unspecified) (writer : W)
    (config : logger.Config) (getter : Option (ReqIdGetter Ctx)) (v : Int) (env : Env)
    (ctx : Ctx) (begin : Int) (fc : Unit → String × Int) (err : Option GoError) :
    (∀ fmt args, Event.printf writer fmt args
          ∈ ((New writer config getter).LogMode v).Trace env ctx begin fc err [] →
        args[args.length - 3]?
            = some (if (fc ()).2 = -1 then Arg.str "-" else Arg.int64 (fc ()).2)
          ∧ ∃ pre post, sprintf u fmt args
              = pre ++ "[rows:" ++ (if (fc ()).2 = -1 then "-" else toString (fc ()).2) ++ "]"
                ++ post)
    ∧ rowsArg (-1) = Arg.str "-"
    ∧ rowsArg (-2) = Arg.int64 (-2)
    ∧ rowsArg 0 = Arg.int64 0
    ∧ (∀ c caller ms sql rid, ∃ pre post,
        traceText c caller ms (rowsText (-1)) sql rid = pre ++ "[rows:-]" ++ post)
    ∧ (∀ c caller slow ms sql rid, ∃ pre post,
        traceWarnText c caller slow ms (rowsText (-1)) sql rid = pre ++ "[rows:-]" ++ post)
    ∧ (∀ c caller e ms sql rid, ∃ pre post,
        traceErrText c caller e ms (rowsText (-1)) sql rid = pre ++ "[rows:-]" ++ post) := by
  have h1 : ∀ (c : Bool) (caller ms rows sql rid : String), ∃ pre post,
      traceText c caller ms rows sql rid = pre ++ "[rows:" ++ rows ++ "]" ++ post := by
    intro c caller ms rows sql rid
    refine ⟨paint c logger.Green ++ caller ++ "\t" ++ paint c logger.Reset
      ++ paint c logger.Yellow ++ "[" ++ ms ++ "ms] " ++ paint c logger.BlueBold,
      paint c logger.Reset ++ " " ++ sql ++ " req_id:" ++ rid ++ " ", ?_⟩
    apply String.ext
    simp [traceText]
  have h2 : ∀ (c : Bool) (caller slow ms rows sql rid : String), ∃ pre post,
      traceWarnText c caller slow ms rows sql rid = pre ++ "[rows:" ++ rows ++ "]" ++ post := by
    intro c caller slow ms rows sql rid
    refine ⟨paint c logger.Green ++ caller ++ " " ++ paint c logger.Yellow ++ slow ++ "\t"
      ++ paint c logger.Reset ++ paint c logger.RedBold ++ "[" ++ ms ++ "ms] "
      ++ paint c logger.Yellow,
      paint c logger.Magenta ++ " " ++ sql ++ " req_id:" ++ rid ++ " "
      ++ paint c logger.Reset, ?_⟩
    apply String.ext
    simp [traceWarnText]
  have h3 : ∀ (c : Bool) (caller e ms rows sql rid : String), ∃ pre post,
      traceErrText c caller e ms rows sql rid = pre ++ "[rows:" ++ rows ++ "]" ++ post := by
    intro c caller e ms rows sql rid
    refine ⟨paint c logger.RedBold ++ caller ++ " " ++ paint c logger.MagentaBold ++ e
      ++ "\t" ++ paint c logger.Reset ++ paint c logger.Yellow ++ "[" ++ ms ++ "ms] "
      ++ paint c logger.BlueBold,
      paint c logger.Reset ++ " " ++ sql ++ " req_id:" ++ rid ++ " ", ?_⟩
    apply String.ext
    simp [traceErrText]
  have hdash : ∀ (p q : String), p ++ "[rows:" ++ "-" ++ "]" ++ q = p ++ "[rows:-]" ++ q := by
    intro p q
    apply String.ext
    simp
  refine ⟨?_, rfl, rfl, rfl, ?_, ?_, ?_⟩
  · intro fmt args h
    have hrows : (if (fc ()).2 = -1 then "-" else toString (fc ()).2) = rowsText (fc ()).2 :=
      rfl
    rw [hrows]
    rcases sprintf_mem_Trace u writer config getter v env ctx begin fc err writer fmt args h
      with ⟨e, -, ha, -, hs⟩ | ⟨ha, -, hs⟩ | ⟨ha, -, hs⟩
    · exact ⟨by rw [ha]; rfl, by rw [hs]; exact h3 _ _ _ _ _ _ _⟩
    · exact ⟨by rw [ha]; rfl, by rw [hs]; exact h2 _ _ _ _ _ _ _⟩
    · exact ⟨by rw [ha]; rfl, by rw [hs]; exact h1 _ _ _ _ _ _⟩
  · intro c caller ms sql rid
    obtain ⟨pre, post, h⟩ := h1 c caller ms (rowsText (-1)) sql rid
    exact ⟨pre, post, by rw [h]; exact hdash pre post⟩
  · intro c caller slow ms sql rid
    obtain ⟨pre, post, h⟩ := h2 c caller slow ms (rowsText (-1)) sql rid
    exact ⟨pre, post, by rw [h]; exact hdash pre post⟩
  · intro c caller e ms sql rid
    obtain ⟨pre, post, h⟩ := h3 c caller e ms (rowsText (-1)) sql rid
    exact ⟨pre, post, by rw [h]; exact hdash pre post⟩

/-! ## Agreement of verbs and arguments in `Trace` -/

/-- The directives of the three trace templates of a logger built by `New`. -/
theorem directives_New {W Ctx : Type} (writer : W) (config : logger.Config)
    (getter : Option (ReqIdGetter Ctx)) :
    directives none (New writer config getter).traceStr.data
        = [([], 's'), (['.', '3'], 'f'), ([], 'v'), ([], 's'), ([], 's')]
    ∧ directives none (New writer config getter).traceWarnStr.data
        = [([], 's'), ([], 's'), (['.', '3'], 'f'), ([], 'v'), ([], 's'), ([], 's')]
    ∧ directives none (New writer config getter).traceErrStr.data
        = [([], 's'), ([], 's'), (['.', '3'], 'f'), ([], 'v'), ([], 's'), ([], 's')] := by
  have h := directives_templatesOf config.Colorful
  rw [← templates_New writer config getter] at h
  simp only [templates, List.map_cons, List.map_nil, List.cons.injEq, and_true] at h
  exact ⟨h.2.2.2.1, h.2.2.2.2.1, h.2.2.2.2.2⟩

/-- C18: in every branch of `Trace` and in both template sets the template has as many
verbs as the writer gets arguments, five for the normal line and six for the slow-query and
error lines, and each argument is of a kind its verb takes: caller location (`%s`), then the
error or the slow-query message (`%s`) in the six-verb lines, elapsed milliseconds as a
float (`%.3f`), rows (`%v`), SQL (`%s`), request id (`%s`). -/
theorem C18_format_argument_agreement {W Ctx : Type} (writer : W) (config : logger.Config)
    (getter : Option (ReqIdGetter Ctx)) (v : Int) (env : Env) (ctx : Ctx) (begin : Int)
    (fc : Unit → String × Int) (err : Option GoError) :
    (verbs (New writer config getter).traceStr = ["%s", "%.3f", "%v", "%s", "%s"]
      ∧ verbs (New writer config getter).traceWarnStr
          = ["%s", "%s", "%.3f", "%v", "%s", "%s"]
      ∧ verbs (New writer config getter).traceErrStr
          = ["%s", "%s", "%.3f", "%v", "%s", "%s"])
    ∧ (∀ fmt args, Event.printf writer fmt args
          ∈ ((New writer config getter).LogMode v).Trace env ctx begin fc err [] →
        agree (directives none fmt.data) args = true
          ∧ (verbs fmt).length = args.length
          ∧ ((verbs fmt = ["%s", "%.3f", "%v", "%s", "%s"]
              ∧ args = [Arg.str env.FileWithLineNum,
                  Arg.float64Div (env.Since begin) 1000000,
                  (if (fc ()).2 = -1 then Arg.str "-" else Arg.int64 (fc ()).2),
                  Arg.str (fc ()).1, Arg.str ((New writer config getter).reqIdGetter ctx)])
            ∨ (verbs fmt = ["%s", "%s", "%.3f", "%v", "%s", "%s"]
              ∧ ∃ second, args = [Arg.str env.FileWithLineNum, second,
                  Arg.float64Div (env.Since begin) 1000000,
                  (if (fc ()).2 = -1 then Arg.str "-" else Arg.int64 (fc ()).2),
                  Arg.str (fc ()).1, Arg.str ((New writer config getter).reqIdGetter ctx)]
                ∧ (second = Arg.str ("SLOW SQL >= " ++ env.durationString config.SlowThreshold)
                  ∨ ∃ e, err = some e ∧ second = Arg.error e)))) := by
  obtain ⟨d1, d2, d3⟩ := directives_New writer config getter
  have v1 : verbs (New writer config getter).traceStr = ["%s", "%.3f", "%v", "%s", "%s"] := by
    unfold verbs
    rw [d1]
    decide
  have v2 : verbs (New writer config getter).traceWarnStr
      = ["%s", "%s", "%.3f", "%v", "%s", "%s"] := by
    unfold verbs
    rw [d2]
    decide
  have v3 : verbs (New writer config getter).traceErrStr
      = ["%s", "%s", "%.3f", "%v", "%s", "%s"] := by
    unfold verbs
    rw [d3]
    decide
  refine ⟨⟨v1, v2, v3⟩, ?_⟩
  intro fmt args h
  rcases sprintf_mem_Trace sampleUnspecified writer config getter v env ctx begin fc err
    writer fmt args h with ⟨e, he, ha, hf, -⟩ | ⟨ha, hf, -⟩ | ⟨ha, hf, -⟩
  · refine ⟨?_, ?_, Or.inr ⟨by rw [hf]; exact v3, Arg.error e, ha, Or.inr ⟨e, he, rfl⟩⟩⟩
    · rw [hf, d3, ha]
      by_cases hrw : (fc ()).2 = -1 <;> simp [agree, renderArg, rowsArg, hrw]
    · rw [hf, v3, ha]
      rfl
  · refine ⟨?_, ?_, Or.inr ⟨by rw [hf]; exact v2, _, ha, Or.inl rfl⟩⟩
    · rw [hf, d2, ha]
      by_cases hrw : (fc ()).2 = -1 <;> simp [agree, renderArg, rowsArg, hrw]
    · rw [hf, v2, ha]
      rfl
  · refine ⟨?_, ?_, Or.inl ⟨by rw [hf]; exact v1, ha⟩⟩
    · rw [hf, d1, ha]
      by_cases hrw : (fc ()).2 = -1 <;> simp [agree, renderArg, rowsArg, hrw]
    · rw [hf, v1, ha]
      rfl

/-! ## Elapsed time -/

/-- The rounded quotient is within a half of the quotient. -/
theorem roundHalfEven_near (n d : Nat) (hd : 0 < d) :
    2 * n ≤ (2 * roundHalfEven n d + 1) * d ∧ 2 * roundHalfEven n d * d ≤ 2 * n + d := by
  have h1 := Nat.div_add_mod n d
  have h2 := Nat.mod_lt n hd
  have e1 : (2 * (n / d) + 1) * d = 2 * (d * (n / d)) + d := by ring
  have e2 : (2 * (n / d + 1) + 1) * d = 2 * (d * (n / d)) + 3 * d := by ring
  have e3 : 2 * (n / d) * d = 2 * (d * (n / d)) := by ring
  have e4 : 2 * (n / d + 1) * d = 2 * (d * (n / d)) + 2 * d := by ring
  unfold roundHalfEven
  simp only []
  split_ifs <;> simp only [e1, e2, e3, e4] <;> constructor <;> omega

/-- The denominator of a rounded `float64` is positive. -/
theorem float64Round_den_pos (n d : Nat) : 0 < (float64Round n d).2 := by
  unfold float64Round
  simp only []
  split_ifs <;> first
    | exact Nat.one_pos
    | exact Nat.pos_pow_of_pos _ (by decide)

theorem bitLength_zero (fuel : Nat) : bitLength fuel 0 = 0 := by
  cases fuel <;> simp [bitLength]

/-- With fuel enough, `bitLength` is the number of binary digits. -/
theorem bitLength_spec (fuel : Nat) : ∀ n, n ≤ fuel → 0 < n →
    2 ^ (bitLength fuel n - 1) ≤ n ∧ n < 2 ^ bitLength fuel n ∧ 0 < bitLength fuel n := by
  induction fuel with
  | zero => intro n h1 h2; omega
  | succ f ih =>
    intro n h1 h2
    have hn : n ≠ 0 := by omega
    simp only [bitLength, hn, if_false]
    by_cases h : n / 2 = 0
    · have hn1 : n = 1 := by omega
      rw [h, bitLength_zero]
      subst hn1
      decide
    · have hle : n / 2 ≤ f := by omega
      obtain ⟨a, b, c⟩ := ih (n / 2) hle (by omega)
      refine ⟨?_, ?_, by omega⟩
      · have e : bitLength f (n / 2) + 1 - 1 = (bitLength f (n / 2) - 1) + 1 := by omega
        rw [e, pow_succ]
        omega
      · rw [pow_succ]
        omega

theorem roundHalfEven_one (m : Nat) : roundHalfEven m 1 = m := by
  unfold roundHalfEven
  simp only [Nat.div_one, Nat.mod_one]
  rw [if_pos (by decide)]

/-- An integer below `2 ^ 53` is a `float64`: rounding does not change it. -/
theorem float64Round_int_exact (n : Nat) (h : n < 2 ^ 53) :
    (float64Round n 1).1 = n * (float64Round n 1).2 := by
  by_cases h0 : n = 0
  · subst h0; rfl
  · obtain ⟨a, b, c⟩ := bitLength_spec n n (le_refl n) (by omega)
    have hlo : bitLength 1 1 = 1 := by decide
    have hnb : ¬ (n * 2 ^ 1 < 1 * 2 ^ bitLength n n) := by
      have e : 2 ^ bitLength n n = 2 ^ (bitLength n n - 1) * 2 := by
        rw [← pow_succ]
        congr 1
        omega
      rw [e]
      omega
    have hhi : bitLength n n ≤ 53 := by
      by_contra hc
      have : 2 ^ 53 ≤ 2 ^ (bitLength n n - 1) := Nat.pow_le_pow_right (by decide) (by omega)
      omega
    unfold float64Round
    simp only [h0, if_false, hlo, hnb, decide_False, Bool.false_eq_true]
    rw [if_pos (by omega)]
    simp [roundHalfEven_one]

/-- A quotient below `2 ^ 34` is rounded with at least nineteen binary places. -/
theorem float64Round_small (n d : Nat) (hn : 0 < n) (hd : 0 < d) (h : n < d * 2 ^ 34) :
    ∃ s, 19 ≤ s ∧ float64Round n d = (roundHalfEven (n * 2 ^ s) d, 2 ^ s) := by
  obtain ⟨a1, b1, c1⟩ := bitLength_spec n n (le_refl n) hn
  obtain ⟨a2, b2, c2⟩ := bitLength_spec d d (le_refl d) hd
  have hn0 : n ≠ 0 := by omega
  -- hi ≤ lo + 34
  have hle : bitLength n n ≤ bitLength d d + 34 := by
    by_contra hc
    have h1 : 2 ^ (bitLength d d + 34) ≤ 2 ^ (bitLength n n - 1) :=
      Nat.pow_le_pow_right (by decide) (by omega)
    have h2 : d * 2 ^ 34 < 2 ^ bitLength d d * 2 ^ 34 :=
      Nat.mul_lt_mul_of_pos_right b2 (by positivity)
    rw [← pow_add] at h2
    omega
  unfold float64Round
  simp only [hn0, if_false]
  by_cases hb : n * 2 ^ bitLength d d < d * 2 ^ bitLength n n
  · simp only [hb, decide_True, if_true]
    rw [if_pos (by omega)]
    exact ⟨52 + bitLength d d + 1 - bitLength n n, by omega, rfl⟩
  · simp only [hb, decide_False, Bool.false_eq_true, if_false]
    have hle2 : bitLength n n ≤ bitLength d d + 33 := by
      by_contra hc
      apply hb
      have h1 : 2 ^ (bitLength d d + 34) ≤ 2 ^ bitLength n n :=
        Nat.pow_le_pow_right (by decide) (by omega)
      calc n * 2 ^ bitLength d d < d * 2 ^ 34 * 2 ^ bitLength d d :=
            Nat.mul_lt_mul_of_pos_right h (by positivity)
        _ = d * 2 ^ (bitLength d d + 34) := by rw [pow_add]; ring
        _ ≤ d * 2 ^ bitLength n n := Nat.mul_le_mul_left _ h1
    rw [if_pos (by omega)]
    exact ⟨52 + bitLength d d + 0 - bitLength n n, by omega, rfl⟩

/-- For an elapsed time of less than `2 ^ 53` ns the thousandths written by `%.3f` are
within a half of the exact count of microseconds. -/
theorem thousandths_exact (n : Int) (h : n.natAbs < 2 ^ 53) :
    n.natAbs ≤ 1000 * thousandths (float64DivValue n 1000000).2.1
        (float64DivValue n 1000000).2.2 + 500
    ∧ 1000 * thousandths (float64DivValue n 1000000).2.1 (float64DivValue n 1000000).2.2
        ≤ n.natAbs + 500 := by
  have hx := float64Round_int_exact n.natAbs h
  have hx2 := float64Round_den_pos n.natAbs 1
  have hy : float64Round 1000000 1 = (1000000 * 2 ^ 33, 2 ^ 33) := by decide
  unfold float64DivValue thousandths
  simp only [hy]
  generalize float64Round n.natAbs 1 = x at hx hx2
  obtain ⟨x1, x2⟩ := x
  simp only at hx hx2
  subst hx
  generalize n.natAbs = k at h
  by_cases hk : k = 0
  · subst hk
    simp [float64Round, roundHalfEven]
  · have hN : 0 < k * x2 * 2 ^ 33 := by positivity
    have hD : 0 < x2 * (1000000 * 2 ^ 33) := by positivity
    have hlt : k * x2 * 2 ^ 33 < x2 * (1000000 * 2 ^ 33) * 2 ^ 34 := by
      have h1 : k < 1000000 * 2 ^ 34 := by omega
      calc k * x2 * 2 ^ 33 = k * (x2 * 2 ^ 33) := by ring
        _ < 1000000 * 2 ^ 34 * (x2 * 2 ^ 33) := Nat.mul_lt_mul_of_pos_right h1 (by positivity)
        _ = x2 * (1000000 * 2 ^ 33) * 2 ^ 34 := by ring
    obtain ⟨s, hs, hv⟩ := float64Round_small _ _ hN hD hlt
    rw [hv]
    simp only
    have hP : 2 ^ 19 ≤ 2 ^ s := Nat.pow_le_pow_right (by decide) hs
    have hPpos : 0 < 2 ^ s := by positivity
    obtain ⟨m1, m2⟩ := roundHalfEven_near (k * x2 * 2 ^ 33 * 2 ^ s) (x2 * (1000000 * 2 ^ 33)) hD
    generalize roundHalfEven (k * x2 * 2 ^ 33 * 2 ^ s) (x2 * (1000000 * 2 ^ 33)) = m at m1 m2
    obtain ⟨r1, r2⟩ := roundHalfEven_near (m * 1000) (2 ^ s) hPpos
    generalize roundHalfEven (m * 1000) (2 ^ s) = r at r1 r2
    generalize 2 ^ s = P at hP hPpos m1 m2 r1 r2
    have hC : 0 < x2 * 2 ^ 33 := by positivity
    have m1b : 2 * (k * P) ≤ (2 * m + 1) * 1000000 := by
      apply Nat.le_of_mul_le_mul_right _ hC
      calc 2 * (k * P) * (x2 * 2 ^ 33) = 2 * (k * x2 * 2 ^ 33 * P) := by ring
        _ ≤ (2 * m + 1) * (x2 * (1000000 * 2 ^ 33)) := m1
        _ = (2 * m + 1) * 1000000 * (x2 * 2 ^ 33) := by ring
    have m2b : 2 * m * 1000000 ≤ 2 * (k * P) + 1000000 := by
      apply Nat.le_of_mul_le_mul_right _ hC
      calc 2 * m * 1000000 * (x2 * 2 ^ 33) = 2 * m * (x2 * (1000000 * 2 ^ 33)) := by ring
        _ ≤ 2 * (k * x2 * 2 ^ 33 * P) + x2 * (1000000 * 2 ^ 33) := m2
        _ = (2 * (k * P) + 1000000) * (x2 * 2 ^ 33) := by ring
    have r1b : 2 * (m * 1000) ≤ 2 * (r * P) + P := by
      have : (2 * r + 1) * P = 2 * (r * P) + P := by ring
      omega
    have r2b : 2 * (r * P) ≤ 2 * (m * 1000) + P := by
      have : 2 * r * P = 2 * (r * P) := by ring
      omega
    have hP2 : 524288 ≤ P := by
      have : (2 : Nat) ^ 19 = 524288 := by decide
      omega
    constructor
    · by_contra hc
      have h1 : (1000 * r + 501) * P ≤ k * P := Nat.mul_le_mul_right _ (by omega)
      have h2 : (1000 * r + 501) * P = 1000 * (r * P) + 501 * P := by ring
      omega
    · by_contra hc
      have h1 : (k + 501) * P ≤ 1000 * r * P := Nat.mul_le_mul_right _ (by omega)
      have h2 : (k + 501) * P = k * P + 501 * P := by ring
      have h3 : 1000 * r * P = 1000 * (r * P) := by ring
      omega

/-- The verbs of the three trace templates of a logger built by `New`. -/
theorem verbs_New {W Ctx : Type} (writer : W) (config : logger.Config)
    (getter : Option (ReqIdGetter Ctx)) :
    verbs (New writer config getter).traceStr = ["%s", "%.3f", "%v", "%s", "%s"]
    ∧ verbs (New writer config getter).traceWarnStr = ["%s", "%s", "%.3f", "%v", "%s", "%s"]
    ∧ verbs (New writer config getter).traceErrStr
        = ["%s", "%s", "%.3f", "%v", "%s", "%s"] := by
  obtain ⟨d1, d2, d3⟩ := directives_New writer config getter
  refine ⟨?_, ?_, ?_⟩
  · unfold verbs
    rw [d1]
    decide
  · unfold verbs
    rw [d2]
    decide
  · unfold verbs
    rw [d3]
    decide

/-- C14: in every branch of `Trace` the elapsed argument handed to the writer is the
`float64` quotient of the elapsed nanoseconds by `1e6`, and the verb that takes it is
`%.3f`. Its text is a sign, the whole milliseconds, a point and exactly three digits: the
thousandths nearest to the `float64` value, which for an elapsed time of less than `2 ^ 53`
ns are within a half of the exact count of microseconds. For 1,234,567 ns the text is
`1.235`. -/
theorem C14_elapsed_milliseconds {W Ctx : Type} (u : Unspecified) (writer : W)
    (config : logger.Config) (getter : Option (ReqIdGetter Ctx)) (v : Int) (env : Env)
    (ctx : Ctx) (begin : Int) (fc : Unit → String × Int) (err : Option GoError) (n : Int) :
    (∀ fmt args, Event.printf writer fmt args
          ∈ ((New writer config getter).LogMode v).Trace env ctx begin fc err [] →
        args[args.length - 4]? = some (Arg.float64Div (env.Since begin) 1000000)
          ∧ (verbs fmt)[args.length - 4]? = some "%.3f"
          ∧ ∃ pre post, sprintf u fmt args
              = pre ++ "[" ++ formatFloat3 (env.Since begin) 1000000 ++ "ms] " ++ post)
    ∧ formatFloat3 1234567 1000000 = "1.235"
    ∧ formatFloat3 n 1000000
        = (if n < 0 then "-" else "")
          ++ toString (thousandths (float64DivValue n 1000000).2.1
              (float64DivValue n 1000000).2.2 / 1000)
          ++ "."
          ++ String.mk [
            Nat.digitChar (thousandths (float64DivValue n 1000000).2.1
              (float64DivValue n 1000000).2.2 / 100 % 10),
            Nat.digitChar (thousandths (float64DivValue n 1000000).2.1
              (float64DivValue n 1000000).2.2 / 10 % 10),
            Nat.digitChar (thousandths (float64DivValue n 1000000).2.1
              (float64DivValue n 1000000).2.2 % 10)]
    ∧ (2 * ((float64DivValue n 1000000).2.1 * 1000)
          ≤ (2 * thousandths (float64DivValue n 1000000).2.1
              (float64DivValue n 1000000).2.2 + 1) * (float64DivValue n 1000000).2.2
        ∧ 2 * thousandths (float64DivValue n 1000000).2.1 (float64DivValue n 1000000).2.2
            * (float64DivValue n 1000000).2.2
          ≤ 2 * ((float64DivValue n 1000000).2.1 * 1000) + (float64DivValue n 1000000).2.2)
    ∧ (n.natAbs < 2 ^ 53 →
        n.natAbs ≤ 1000 * thousandths (float64DivValue n 1000000).2.1
            (float64DivValue n 1000000).2.2 + 500
        ∧ 1000 * thousandths (float64DivValue n 1000000).2.1
            (float64DivValue n 1000000).2.2 ≤ n.natAbs + 500) := by
  have h1 : ∀ (c : Bool) (caller ms rows sql rid : String), ∃ pre post,
      traceText c caller ms rows sql rid = pre ++ "[" ++ ms ++ "ms] " ++ post := by
    intro c caller ms rows sql rid
    refine ⟨paint c logger.Green ++ caller ++ "\t" ++ paint c logger.Reset
      ++ paint c logger.Yellow,
      paint c logger.BlueBold ++ "[rows:" ++ rows ++ "]" ++ paint c logger.Reset ++ " "
      ++ sql ++ " req_id:" ++ rid ++ " ", ?_⟩
    apply String.ext
    simp [traceText]
  have h2 : ∀ (c : Bool) (caller slow ms rows sql rid : String), ∃ pre post,
      traceWarnText c caller slow ms rows sql rid = pre ++ "[" ++ ms ++ "ms] " ++ post := by
    intro c caller slow ms rows sql rid
    refine ⟨paint c logger.Green ++ caller ++ " " ++ paint c logger.Yellow ++ slow ++ "\t"
      ++ paint c logger.Reset ++ paint c logger.RedBold,
      paint c logger.Yellow ++ "[rows:" ++ rows ++ "]" ++ paint c logger.Magenta ++ " "
      ++ sql ++ " req_id:" ++ rid ++ " " ++ paint c logger.Reset, ?_⟩
    apply String.ext
    simp [traceWarnText]
  have h3 : ∀ (c : Bool) (caller e ms rows sql rid : String), ∃ pre post,
      traceErrText c caller e ms rows sql rid = pre ++ "[" ++ ms ++ "ms] " ++ post := by
    intro c caller e ms rows sql rid
    refine ⟨paint c logger.RedBold ++ caller ++ " " ++ paint c logger.MagentaBold ++ e
      ++ "\t" ++ paint c logger.Reset ++ paint c logger.Yellow,
      paint c logger.BlueBold ++ "[rows:" ++ rows ++ "]" ++ paint c logger.Reset ++ " "
      ++ sql ++ " req_id:" ++ rid ++ " ", ?_⟩
    apply String.ext
    simp [traceErrText]
  obtain ⟨v1, v2, v3⟩ := verbs_New writer config getter
  refine ⟨?_, by decide, ?_, ?_, thousandths_exact n⟩
  · intro fmt args h
    rcases sprintf_mem_Trace u writer config getter v env ctx begin fc err writer fmt args h
      with ⟨e, -, ha, hf, hs⟩ | ⟨ha, hf, hs⟩ | ⟨ha, hf, hs⟩
    · exact ⟨by rw [ha]; rfl, by rw [hf, v3, ha]; rfl, by rw [hs]; exact h3 _ _ _ _ _ _ _⟩
    · exact ⟨by rw [ha]; rfl, by rw [hf, v2, ha]; rfl, by rw [hs]; exact h2 _ _ _ _ _ _ _⟩
    · exact ⟨by rw [ha]; rfl, by rw [hf, v1, ha]; rfl, by rw [hs]; exact h1 _ _ _ _ _ _⟩
  · unfold formatFloat3 fixed3
    simp only [float64DivValue, decide_eq_true_eq]
    apply String.ext
    simp [String.data_append]
  · unfold thousandths
    exact roundHalfEven_near _ _ (float64Round_den_pos _ _)

end withreqid
